import Mathlib

/-!
Verification development for the ESB (electric school bus) simulation engine.

The JavaScript sources are embedded shallowly over exact rational arithmetic:
JavaScript numbers become `ℚ`, nullable fields become `Option`, and the
mutable global state touched by the simulation functions becomes explicit
state passing on a `SimState` record.  Geometric distances in the source are
computed by `haversineDistance`, a trigonometric formula with no exact
rational representation; the embedding is therefore parameterized by the
distance function `dist : Pos → Pos → ℚ` wherever the source calls it, and
concrete witnesses instantiate it with a concrete computable function.
-/

namespace ESB

/-- A map coordinate pair `[lng, lat]`. -/
abbrev Pos := ℚ × ℚ

/-- Bus class: Type A (small) or Type C (full-size). -/
inductive BusType where
  | A
  | C
  deriving DecidableEq, Repr

/-- Weather condition for a simulated day. -/
inductive Weather where
  | fair
  | cold
  | extreme
  deriving DecidableEq, Repr

/-- Bus status strings from the simulation engine. -/
inductive BusStatus where
  | waiting
  | moving
  | dwelling
  | atSchool
  | travelingToCharger
  | charging
  | returningFromCharger
  | completed
  | stranded
  deriving DecidableEq, Repr

/-- Route status strings from the simulation engine. -/
inductive RouteStatus where
  | waiting
  | active
  | charging
  | deadhead
  | failed
  | completed
  deriving DecidableEq, Repr

/-- Trip phase labels (advisory, drives display). -/
inductive TripPhase where
  | am
  | midday
  | school
  | pm
  deriving DecidableEq, Repr

/-- Stop types along a route. -/
inductive StopType where
  | depot
  | pickup
  | school
  | dropoff
  deriving DecidableEq, Repr

/-- JavaScript truthiness of a nullable number (`null` and `0` are falsy). -/
def jsTruthyQ (x : Option ℚ) : Bool :=
  match x with
  | none => false
  | some v => v != 0

/-- JavaScript `x || d` on a nullable number. -/
def jsOrQ (x : Option ℚ) (d : ℚ) : ℚ :=
  match x with
  | none => d
  | some v => if v = 0 then d else v

/-- JavaScript `Math.round` (half rounds toward positive infinity). -/
def jsRound (q : ℚ) : ℤ :=
  ⌊q + 1 / 2⌋

namespace ESB_EFFICIENCY

/-- Type A efficiency table (kWh per mile) keyed by weather. -/
def typeA : Weather → ℚ
  | .fair => 1.3
  | .cold => 1.6
  | .extreme => 1.9

/-- Type C efficiency table: 50% higher than Type A. -/
def typeC : Weather → ℚ
  | .fair => 1.3 * 1.5
  | .cold => 1.6 * 1.5
  | .extreme => 1.9 * 1.5

end ESB_EFFICIENCY

namespace FUEL_COSTS

/-- Overnight electricity rate in dollars per kWh. -/
def electricOvernight : ℚ := 0.18

/-- Daytime electricity rate in dollars per kWh. -/
def electricDaytime : ℚ := 0.36

/-- Diesel price per gallon. -/
def dieselPricePerGallon : ℚ := 3.00

end FUEL_COSTS

namespace BATTERY_CONFIG

/-- Safety reserve fraction of the battery. -/
def safetyBuffer : ℚ := 0.15

/-- Minimum battery fraction required when returning to the depot. -/
def minReturnCharge : ℚ := 0.15

/-- Default DC fast charging rate in kWh per hour. -/
def chargingRateKwhPerHour : ℚ := 50

end BATTERY_CONFIG

namespace SIMULATION_CONFIG

/-- Average bus speed in miles per hour. -/
def baseSpeedMph : ℚ := 25

/-- Stop arrival threshold in miles. -/
def arrivalThreshold : ℚ := 0.1

end SIMULATION_CONFIG

namespace TIME_WINDOWS

/-- AM trip departure hour (5:00 AM). -/
def amTripStart : ℚ := 5

/-- AM trip arrival hour at school (9:00 AM). -/
def amTripEnd : ℚ := 9

/-- Mid-day charging window opening hour. -/
def midDayStart : ℚ := 9

/-- Mid-day charging window closing hour (noon). -/
def midDayEnd : ℚ := 12

/-- PM trip departure hour. -/
def pmTripStart : ℚ := 12

/-- PM trip arrival hour at depot (4:00 PM). -/
def pmTripEnd : ℚ := 16

end TIME_WINDOWS

namespace MIDDAY_CHARGING

/-- Points penalty per deadhead mile. -/
def deadheadPenaltyPerMile : ℚ := 5

/-- Extra energy cost multiplier for deadhead miles. -/
def energyCostDeadhead : ℚ := 1.5

/-- Maximum hours available for mid-day charging (9 AM to noon). -/
def maxChargingDuration : ℚ := 3

end MIDDAY_CHARGING

/-- Difficulty labels of the weather patterns. -/
inductive Difficulty where
  | easy
  | medium
  | hard
  | expert
  deriving DecidableEq, Repr

/-- The four selectable weather patterns. -/
inductive PatternKey where
  | spring
  | fall
  | winter
  | polar
  deriving DecidableEq, Repr

/-- Difficulty label of each weather pattern. -/
def patternDifficulty : PatternKey → Difficulty
  | .spring => .easy
  | .fall => .medium
  | .winter => .hard
  | .polar => .expert

namespace SCORING

/-- Base points per day completed. -/
def dayCompleted : ℤ := 100

/-- Bonus for completing a day without a mid-day charge. -/
def noMidDayChargeBonus : ℤ := 150

/-- Penalty for mid-day charging. -/
def midDayChargePenalty : ℤ := -50

/-- Bonus for efficient overnight charging. -/
def efficientChargeBonus : ℤ := 75

/-- Points lost per kWh of overnight overcharge. -/
def overchargePerKwhPenalty : ℚ := -2

/-- Bonus for a perfect route-distance prediction. -/
def perfectRoutePrediction : ℤ := 500

/-- Bonus for a week with zero mid-day charges. -/
def perfectWeekBonus : ℤ := 1000

/-- Score multiplier keyed by scenario difficulty. -/
def difficultyMultiplier : Difficulty → ℚ
  | .easy => 1.0
  | .medium => 1.5
  | .hard => 2.0
  | .expert => 3.0

end SCORING

/-- A stop along the route. -/
structure Stop where
  type : StopType
  coords : Pos
  completed : Bool
  deriving DecidableEq, Repr

/-- A route: polyline, stop list, total round-trip distance, display status. -/
structure Route where
  distance : ℚ
  path : List Pos
  stops : List Stop
  status : RouteStatus
  progress : ℚ
  deriving DecidableEq, Repr

/-- The central mutable bus entity of the simulation engine. -/
structure Bus where
  busType : BusType
  position : Pos
  progress : ℚ
  currentStopIndex : ℕ
  batteryCapacity : ℚ
  batteryLevel : ℚ
  batteryKwh : ℚ
  energyConsumed : ℚ
  distanceTraveled : ℚ
  status : BusStatus
  dwellUntil : Option ℚ
  needsMidDayCharge : Bool
  midDayChargeChecked : Bool
  arrivedAtSchool : Bool
  isCharging : Bool
  usedMidDayCharge : Bool
  tripPhase : TripPhase
  chargingTimeHours : ℚ
  chargingRate : Option ℚ
  chargingKwhPerHour : Option ℚ
  targetChargeKwh : Option ℚ
  chargerDestination : Option Pos
  needsReturnTrip : Bool
  returnDestination : Option Pos
  returnDistance : Option ℚ
  returnProgress : Option ℚ
  returnPath : Option (List Pos)
  originalPosition : Option Pos
  deadheadProgress : Option ℚ
  deadheadDistance : Option ℚ
  deadheadPath : Option (List Pos)
  deadheadStartPosition : Option Pos
  deadheadEnergyNeeded : Option ℚ
  deriving DecidableEq, Repr

/-- Daily statistics accumulated by the simulation. -/
structure Stats where
  totalDistance : ℚ
  totalEnergyConsumed : ℚ
  electricCost : ℚ
  midDayCharges : ℕ
  midDayChargingCost : ℚ
  midDayChargingKwh : ℚ
  nightlyChargingKwh : ℚ
  nightlyChargingCost : ℚ
  deadheadMiles : ℚ
  completedRoutes : ℕ
  co2Avoided : ℚ
  pickupsCompleted : ℕ
  v2gEarnings : ℚ
  v2gKwhDischarged : ℚ
  deriving DecidableEq, Repr

/-- The data of a pending mid-day charge request handed to the station
selection dialog (`setPendingCharge`): the energy to add, the battery level
at the time of the request, and the remaining mid-day window. -/
structure PendingCharge where
  energyNeeded : ℚ
  currentBattery : ℚ
  timeRemaining : ℚ
  deriving DecidableEq, Repr

/-- Per-day result record pushed by `advanceDay`. -/
structure DayResult where
  day : ℕ
  weather : Weather
  midDayCharged : Bool
  cost : ℚ
  distance : ℚ
  energyConsumed : ℚ
  deriving DecidableEq, Repr

/-- Week-level simulation state. -/
structure Week where
  currentDay : ℕ
  schedule : List (ℕ × Weather)
  dayResults : List DayResult
  totalMidDayCharges : ℕ
  totalMidDayCost : ℚ
  totalOvernightCost : ℚ
  totalV2GEarnings : ℚ
  totalV2GKwh : ℚ
  deriving DecidableEq, Repr

/-- An additive score record `{reason, points, day?}`. -/
structure ScoreEntry where
  reason : String
  points : ℤ
  day : Option ℕ
  deriving DecidableEq, Repr

/-- A per-day score with its textual breakdown. -/
structure DayScore where
  day : ℕ
  points : ℤ
  breakdown : List String
  deriving DecidableEq, Repr

/-- Scoring state: running total plus the recorded day scores, bonuses and
penalties. -/
structure Score where
  total : ℤ
  dayScores : List DayScore
  bonuses : List ScoreEntry
  penalties : List ScoreEntry
  deriving DecidableEq, Repr

/-- A nightly charging decision record. -/
structure NightlyDecision where
  day : ℕ
  targetPercent : ℚ
  startPercent : ℚ
  energyCharged : ℚ
  cost : ℚ
  v2gAmount : ℚ
  v2gEarned : ℚ
  deriving DecidableEq, Repr

/-- Scenario configuration chosen at the splash screen. -/
structure Config where
  busType : BusType
  batteryCapacity : ℚ
  guessDistance : ℚ
  weatherPattern : PatternKey
  deriving DecidableEq, Repr

/-- The portion of the global application state read and written by the
per-tick simulation functions: the single bus, its route, the daily stats,
the current weather, the simulated clock, the displayed trip phase, any
pending charge request, and the loop-control flags. -/
structure SimState where
  bus : Bus
  route : Route
  stats : Stats
  weather : Weather
  currentTime : ℚ
  tripPhase : TripPhase
  pendingCharge : Option PendingCharge
  running : Bool
  gameOver : Bool
  deriving DecidableEq, Repr

/-- Efficiency lookup `getEfficiency(busType, weather)` in kWh per mile. -/
def getEfficiency (busType : BusType) (weather : Weather) : ℚ :=
  match busType with
  | .A => ESB_EFFICIENCY.typeA weather
  | .C => ESB_EFFICIENCY.typeC weather

/-- Simulated clock from route progress (`calculateTimeFromProgress`). -/
def calculateTimeFromProgress (progress : ℚ) (chargingTimeHours : ℚ)
    (atSchool : Bool) : ℚ :=
  if progress < 0.5 ∧ ¬atSchool then
    let amProgress := progress / 0.5
    let amHours := TIME_WINDOWS.amTripEnd - TIME_WINDOWS.amTripStart
    TIME_WINDOWS.amTripStart + amProgress * amHours
  else if atSchool ∨ chargingTimeHours > 0 then
    let chargingStartTime := TIME_WINDOWS.midDayStart
    let currentChargingTime :=
      min chargingTimeHours (TIME_WINDOWS.midDayEnd - TIME_WINDOWS.midDayStart)
    chargingStartTime + currentChargingTime
  else
    let pmProgress := (progress - 0.5) / 0.5
    let pmHours := TIME_WINDOWS.pmTripEnd - TIME_WINDOWS.pmTripStart
    TIME_WINDOWS.pmTripStart + pmProgress * pmHours

/-- Advisory trip phase from progress (`getTripPhase`). -/
def getTripPhase (progress : ℚ) (isCharging : Bool) : TripPhase :=
  if progress < 0.45 then .am
  else if progress < 0.55 ∨ isCharging then .midday
  else .pm

/-- Push a day score and add its points to the running total
(`addDayScore`). -/
def addDayScore (s : Score) (d : DayScore) : Score :=
  { s with dayScores := s.dayScores ++ [d], total := s.total + d.points }

/-- Push a bonus and add its points to the running total (`addBonus`). -/
def addBonus (s : Score) (b : ScoreEntry) : Score :=
  { s with bonuses := s.bonuses ++ [b], total := s.total + b.points }

/-- Push a penalty and add its (negative) points to the running total
(`addPenalty`). -/
def addPenalty (s : Score) (p : ScoreEntry) : Score :=
  { s with penalties := s.penalties ++ [p], total := s.total + p.points }

namespace DIESEL_MPG

/-- Type A diesel bus fuel economy. -/
def typeA : ℚ := 9

/-- Type C diesel bus fuel economy. -/
def typeC : ℚ := 6

end DIESEL_MPG

namespace CO2_CONFIG

/-- EPA conversion factor: pounds of CO2 per gallon of diesel. -/
def poundsPerGallon : ℚ := 19.4

/-- Type C additional fuel multiplier. -/
def typeCMultiplier : ℚ := 1.5

end CO2_CONFIG

/-- Pounds of CO2 avoided over a distance (`calculateCO2Avoided`). -/
def calculateCO2Avoided (distanceMiles : ℚ) (busType : BusType) : ℚ :=
  let mpg := match busType with
    | .C => DIESEL_MPG.typeC
    | .A => DIESEL_MPG.typeA
  let gallonsAvoided := distanceMiles / mpg
  let co2Avoided := gallonsAvoided * CO2_CONFIG.poundsPerGallon
  match busType with
  | .C => co2Avoided * CO2_CONFIG.typeCMultiplier
  | .A => co2Avoided

/-- Linear interpolation between two scalars (`lerp`). -/
def lerp (a b t : ℚ) : ℚ :=
  a + (b - a) * t

/-- Lengths of the successive segments of a polyline, under the distance
function `dist` standing for `haversineDistance`. -/
def segmentLengths (dist : Pos → Pos → ℚ) : List Pos → List ℚ
  | a :: b :: rest => dist a b :: segmentLengths dist (b :: rest)
  | _ => []

/-- Total polyline length in miles (`calculatePathLength`). -/
def calculatePathLength (dist : Pos → Pos → ℚ) (path : List Pos) : ℚ :=
  if path.length < 2 then 0 else (segmentLengths dist path).sum

/-- The segment walk of `interpolatePosition`: find the segment containing
the target distance, skipping zero-length segments, and linearly interpolate
inside it; past the end, return the last path point. -/
def interpolateWalk (dist : Pos → Pos → ℚ) (target : ℚ) (lastPoint : Pos) :
    ℚ → List Pos → Pos
  | acc, p :: q :: rest =>
    let len := dist p q
    if len = 0 then interpolateWalk dist target lastPoint acc (q :: rest)
    else if acc + len ≥ target then
      let segmentProgress := (target - acc) / len
      (lerp p.1 q.1 segmentProgress, lerp p.2 q.2 segmentProgress)
    else interpolateWalk dist target lastPoint (acc + len) (q :: rest)
  | _, _ => lastPoint

/-- Position along a polyline at a fractional progress
(`interpolatePosition`); the NaN validation of the source is vacuous over
exact rationals. -/
def interpolatePosition (dist : Pos → Pos → ℚ) (path : List Pos)
    (progress : ℚ) : Pos :=
  match path with
  | [] => (0, 0)
  | [p] => p
  | p :: q :: rest =>
    let progress := max 0 (min 1 progress)
    if progress ≤ 0 then p
    else if progress ≥ 1 then (p :: q :: rest).getLastD (0, 0)
    else
      let totalLength := (segmentLengths dist (p :: q :: rest)).sum
      if totalLength = 0 then p
      else
        let targetDistance := progress * totalLength
        interpolateWalk dist targetDistance ((p :: q :: rest).getLastD (0, 0))
          0 (p :: q :: rest)

/-- Loop-control effect of `stopSimulation`. -/
def stopSimulation (s : SimState) : SimState :=
  { s with running := false }

/-- Effect of `triggerGameOver` on the simulation state (the modal display
is presentation-level). -/
def triggerGameOver (s : SimState) : SimState :=
  { s with running := false, gameOver := true }

/-- Finalize a completed route (`completeRoute`). -/
def completeRoute (s : SimState) : SimState :=
  { s with
    bus := { s.bus with status := .completed, progress := 1 }
    route := { s.route with
               status := .completed
               stops := s.route.stops.map (fun st => { st with completed := true }) }
    stats := { s.stats with completedRoutes := s.stats.completedRoutes + 1 } }

/-- The mid-day charging decision engine (`checkChargingNeeds`): projects the
battery at the depot after the PM leg and, if it falls below the
minimum-return threshold, records a pending charge request (the station list
and modal display are presentation-level).  Returns the updated state and
whether charging is needed. -/
def checkChargingNeeds (s : SimState) : SimState × Bool :=
  if s.bus.isCharging ∨ s.bus.midDayChargeChecked ∨
      s.bus.status = .travelingToCharger then (s, false)
  else if ¬s.route.stops.any (fun st => st.type == StopType.school) then
    (s, false)
  else
    let bus : Bus := { s.bus with midDayChargeChecked := true }
    let remainingDistance := s.route.distance / 2
    let efficiency := getEfficiency bus.busType s.weather
    let energyNeeded := remainingDistance * efficiency
    let batteryAtDepot := bus.batteryKwh - energyNeeded
    let batteryPercentAtDepot := batteryAtDepot / bus.batteryCapacity * 100
    if batteryPercentAtDepot < BATTERY_CONFIG.minReturnCharge * 100 then
      let bus : Bus := { bus with needsMidDayCharge := true }
      let targetBatteryAtDepot := bus.batteryCapacity * BATTERY_CONFIG.minReturnCharge
      let energyToAdd := max 0 (targetBatteryAtDepot + energyNeeded - bus.batteryKwh)
      let s := stopSimulation { s with bus := bus }
      ({ s with pendingCharge := some {
            energyNeeded := energyToAdd
            currentBattery := bus.batteryLevel
            timeRemaining := TIME_WINDOWS.midDayEnd - s.currentTime } }, true)
    else ({ s with bus := bus }, false)

/-- Arrival processing for one stop (`processStopArrival`): school triggers
the mid-day check, pickups and dropoffs accrue CO2 statistics and a brief
dwell (celebration bubbles are presentation-level). -/
def processStopArrival (now : ℚ) (s : SimState) (currentStop : Stop) : SimState :=
  if currentStop.type = .school ∧ ¬s.bus.midDayChargeChecked then
    let s : SimState := { s with bus := { s.bus with arrivedAtSchool := true, status := .atSchool } }
    let r := checkChargingNeeds s
    let s := r.1
    if ¬r.2 then
      { s with bus := { s.bus with dwellUntil := some (now + 2000), status := .dwelling } }
    else s
  else
    let s :=
      if currentStop.type = .pickup ∨ currentStop.type = .dropoff then
        let avgStopDistance : ℚ := 2
        let co2Avoided := calculateCO2Avoided avgStopDistance s.bus.busType
        { s with stats := { s.stats with
            co2Avoided := s.stats.co2Avoided + co2Avoided
            pickupsCompleted := s.stats.pickupsCompleted + 1 } }
      else s
    if currentStop.type = .pickup ∨ currentStop.type = .dropoff then
      let dwellTime : ℚ := 500
      { s with bus := { s.bus with dwellUntil := some (now + dwellTime), status := .dwelling } }
    else s

/-- The bounded stop-arrival scan loop of `checkStopArrivals`; `fuel` encodes
the termination of the source `while` loop, whose iteration count is bounded
by the number of stops (the stop index strictly increases each iteration). -/
def checkStopArrivalsGo (dist : Pos → Pos → ℚ) (now : ℚ) :
    ℕ → ℕ → SimState → SimState
  | 0, _, s => s
  | fuel + 1, stopsProcessed, s =>
    if stopsProcessed < 3 ∧ s.bus.currentStopIndex < s.route.stops.length then
      match s.route.stops.get? s.bus.currentStopIndex with
      | none => s
      | some currentStop =>
        if currentStop.completed then
          checkStopArrivalsGo dist now fuel stopsProcessed
            { s with bus := { s.bus with currentStopIndex := s.bus.currentStopIndex + 1 } }
        else
          let distance := dist s.bus.position currentStop.coords
          let threshold := max SIMULATION_CONFIG.arrivalThreshold 0.15
          if distance < threshold then
            let completedStop := { currentStop with completed := true }
            let s : SimState := { s with route := { s.route with
              stops := s.route.stops.set s.bus.currentStopIndex completedStop } }
            let s := processStopArrival now s completedStop
            checkStopArrivalsGo dist now fuel (stopsProcessed + 1)
              { s with bus := { s.bus with currentStopIndex := s.bus.currentStopIndex + 1 } }
          else s
    else s

/-- Stop-arrival scan (`checkStopArrivals`): up to three stops per update. -/
def checkStopArrivals (dist : Pos → Pos → ℚ) (now : ℚ) (s : SimState) : SimState :=
  if s.route.stops.length ≤ s.bus.currentStopIndex then s
  else checkStopArrivalsGo dist now s.route.stops.length 0 s

/-- The stranding block of `moveBus`: zero the battery, mark the bus
stranded and the route failed, and trigger the game over. -/
def strandBus (s : SimState) : SimState :=
  triggerGameOver { s with
    bus := { s.bus with batteryKwh := 0, batteryLevel := 0, status := .stranded }
    route := { s.route with status := .failed } }

/-- The movement-and-energy block of `moveBus`: advance the progress,
interpolate the position, subtract the consumed energy and account the
distance and energy statistics. -/
def moveBusAdvance (dist : Pos → Pos → ℚ) (dt : ℚ) (s : SimState) : SimState :=
  let speedMph := SIMULATION_CONFIG.baseSpeedMph
  let hoursElapsed : ℚ := dt / (3600 * 1000)
  let distanceToTravel := speedMph * hoursElapsed
  let pathLength := calculatePathLength dist s.route.path
  let progressIncrement := distanceToTravel / pathLength
  let newProgress := min 1 (s.bus.progress + progressIncrement)
  let newPosition := interpolatePosition dist s.route.path newProgress
  let efficiency := getEfficiency s.bus.busType s.weather
  let energyUsed := distanceToTravel * efficiency
  let newKwh := max 0 (s.bus.batteryKwh - energyUsed)
  { s with
    bus := { s.bus with
      progress := newProgress
      position := newPosition
      energyConsumed := s.bus.energyConsumed + energyUsed
      batteryKwh := newKwh
      batteryLevel := newKwh / s.bus.batteryCapacity * 100
      distanceTraveled := s.bus.distanceTraveled + distanceToTravel }
    stats := { s.stats with
      totalDistance := s.stats.totalDistance + distanceToTravel
      totalEnergyConsumed := s.stats.totalEnergyConsumed + energyUsed } }

/-- The trip-phase block of `moveBus`. -/
def moveBusPhaseUpdate (s : SimState) : SimState :=
  if 0.45 ≤ s.bus.progress ∧ s.bus.progress ≤ 0.55 then
    { s with bus := { s.bus with tripPhase := .school }, tripPhase := .school }
  else if s.bus.progress > 0.55 then
    { s with bus := { s.bus with tripPhase := .pm }, tripPhase := .pm }
  else s

/-- The tail of `moveBus` after stop arrivals: the progress-based mid-day
charging fallback, then the route-completion check. -/
def moveBusMidFallback (now : ℚ) (s : SimState) : SimState :=
  if 0.48 ≤ s.bus.progress ∧ s.bus.progress ≤ 0.52 ∧
      ¬s.bus.midDayChargeChecked ∧ ¬s.bus.arrivedAtSchool then
    let s : SimState :=
      { s with bus := { s.bus with arrivedAtSchool := true, status := .atSchool } }
    let r := checkChargingNeeds s
    let s := r.1
    if ¬r.2 then
      { s with bus := { s.bus with dwellUntil := some (now + 1000), status := .dwelling } }
    else s
  else if s.bus.progress ≥ 0.99 then completeRoute s
  else s

/-- Advance a moving bus along its route for one tick (`moveBus`): stranding
checks, movement and energy accounting, trip-phase update, stop arrivals,
the progress-based mid-day fallback, and route completion. -/
def moveBus (dist : Pos → Pos → ℚ) (now deltaTime : ℚ) (s : SimState) : SimState :=
  if s.route.path.length < 2 then s
  else if s.bus.batteryKwh ≤ 0 ∧ ¬s.bus.isCharging then strandBus s
  else if calculatePathLength dist s.route.path = 0 then s
  else
    let s1 := moveBusAdvance dist deltaTime s
    if s1.bus.batteryKwh ≤ 0 ∧ ¬s1.bus.isCharging then strandBus s1
    else moveBusMidFallback now (checkStopArrivals dist now (moveBusPhaseUpdate s1))

/-- One charging tick (`handleCharging`): add energy at the station's rate,
account the cost, and exit charging when the target, the 95% cap, or the
3-hour mid-day window is reached. -/
def handleCharging (deltaTime : ℚ) (s : SimState) : SimState :=
  let chargingRateKwhPerHour :=
    jsOrQ s.bus.chargingKwhPerHour BATTERY_CONFIG.chargingRateKwhPerHour
  let hoursElapsed : ℚ := deltaTime / (3600 * 1000)
  let bus : Bus := { s.bus with chargingTimeHours := s.bus.chargingTimeHours + hoursElapsed }
  let energyAdded := chargingRateKwhPerHour * hoursElapsed
  let previousKwh := bus.batteryKwh
  let newKwh := min bus.batteryCapacity (bus.batteryKwh + energyAdded)
  let bus : Bus := { bus with
                     batteryKwh := newKwh
                     batteryLevel := newKwh / bus.batteryCapacity * 100 }
  let actualEnergyAdded := bus.batteryKwh - previousKwh
  let rate := jsOrQ bus.chargingRate FUEL_COSTS.electricDaytime
  let chargingCost := actualEnergyAdded * rate
  let stats : Stats := { s.stats with
    electricCost := s.stats.electricCost + chargingCost
    midDayChargingCost := s.stats.midDayChargingCost + chargingCost
    midDayChargingKwh := s.stats.midDayChargingKwh + actualEnergyAdded }
  let targetKwh := jsOrQ bus.targetChargeKwh (bus.batteryCapacity * 0.80)
  let chargingWindowExpired :=
    bus.chargingTimeHours ≥ MIDDAY_CHARGING.maxChargingDuration
  if bus.batteryKwh ≥ targetKwh ∨ bus.batteryLevel ≥ 95 ∨ chargingWindowExpired then
    let bus : Bus := { bus with isCharging := false, chargingTimeHours := 0 }
    if bus.needsReturnTrip ∧ bus.returnDestination.isSome then
      { s with
        bus := { bus with status := .returningFromCharger, returnProgress := some 0 }
        route := { s.route with status := .deadhead }
        stats := stats }
    else
      { s with
        bus := { bus with
                 status := .moving
                 targetChargeKwh := none
                 chargingRate := none
                 chargingKwhPerHour := none }
        route := { s.route with status := .active }
        stats := stats }
  else { s with bus := bus, stats := stats }

/-- Deadhead leg 1 (`handleDeadheadTravel`): travel from the route to an
off-route charger, with the deadhead energy penalty; on arrival, set up the
return leg and start charging. -/
def handleDeadheadTravel (dist : Pos → Pos → ℚ) (deltaTime : ℚ) (s : SimState) :
    SimState :=
  if ¬(s.bus.chargerDestination.isSome ∧ jsTruthyQ s.bus.deadheadDistance) then
    { s with bus := { s.bus with isCharging := true, status := .charging }
             route := { s.route with status := .charging } }
  else
    let speedMph := SIMULATION_CONFIG.baseSpeedMph
    let hoursElapsed : ℚ := deltaTime / (3600 * 1000)
    let distanceToTravel := speedMph * hoursElapsed
    let bus : Bus := { s.bus with
      deadheadProgress := some (s.bus.deadheadProgress.getD 0 + distanceToTravel)
      distanceTraveled := s.bus.distanceTraveled + distanceToTravel }
    let efficiency := getEfficiency bus.busType s.weather
    let energyUsed := distanceToTravel * efficiency * MIDDAY_CHARGING.energyCostDeadhead
    let newKwh := max 0 (bus.batteryKwh - energyUsed)
    let bus : Bus := { bus with
                       batteryKwh := newKwh
                       batteryLevel := newKwh / bus.batteryCapacity * 100
                       energyConsumed := bus.energyConsumed + energyUsed }
    let stats : Stats := { s.stats with
      totalDistance := s.stats.totalDistance + distanceToTravel
      totalEnergyConsumed := s.stats.totalEnergyConsumed + energyUsed }
    let s : SimState := { s with bus := bus, stats := stats }
    if s.bus.batteryKwh ≤ 0 then
      triggerGameOver { s with bus := { s.bus with status := .stranded }
                               route := { s.route with status := .failed } }
    else
      let deadheadDistance := s.bus.deadheadDistance.getD 0
      let progress := min 1 (s.bus.deadheadProgress.getD 0 / deadheadDistance)
      let newPos :=
        match s.bus.deadheadPath with
        | some p =>
          if p.length > 1 then interpolatePosition dist p progress
          else
            let startPos := s.bus.deadheadStartPosition.getD s.bus.position
            let endPos := s.bus.chargerDestination.getD (0, 0)
            (startPos.1 + (endPos.1 - startPos.1) * progress,
             startPos.2 + (endPos.2 - startPos.2) * progress)
        | none =>
          let startPos := s.bus.deadheadStartPosition.getD s.bus.position
          let endPos := s.bus.chargerDestination.getD (0, 0)
          (startPos.1 + (endPos.1 - startPos.1) * progress,
           startPos.2 + (endPos.2 - startPos.2) * progress)
      let s : SimState := { s with bus := { s.bus with position := newPos } }
      if s.bus.deadheadProgress.getD 0 ≥ deadheadDistance then
        let returnEnergy :=
          deadheadDistance * efficiency * MIDDAY_CHARGING.energyCostDeadhead
        let targetChargeKwh :=
          min (s.bus.batteryCapacity * 0.9)
            (s.bus.targetChargeKwh.getD 0 + returnEnergy)
        { s with
          bus := { s.bus with
            position := s.bus.chargerDestination.getD (0, 0)
            isCharging := true
            status := .charging
            targetChargeKwh := some targetChargeKwh
            needsReturnTrip := true
            returnDestination := s.bus.originalPosition
            returnDistance := s.bus.deadheadDistance
            returnPath := s.bus.deadheadPath.map List.reverse }
          route := { s.route with status := .charging } }
      else s

/-- Deadhead leg 2 (`handleReturnFromCharger`): travel back to the route
along the reversed deadhead path; on arrival, clear all deadhead and
charging sub-state and resume moving. -/
def handleReturnFromCharger (dist : Pos → Pos → ℚ) (deltaTime : ℚ)
    (s : SimState) : SimState :=
  if ¬(s.bus.returnDestination.isSome ∧ jsTruthyQ s.bus.returnDistance) then
    { s with bus := { s.bus with status := .moving }
             route := { s.route with status := .active } }
  else
    let speedMph := SIMULATION_CONFIG.baseSpeedMph
    let hoursElapsed : ℚ := deltaTime / (3600 * 1000)
    let distanceToTravel := speedMph * hoursElapsed
    let bus : Bus := { s.bus with
      returnProgress := some (s.bus.returnProgress.getD 0 + distanceToTravel)
      distanceTraveled := s.bus.distanceTraveled + distanceToTravel }
    let efficiency := getEfficiency bus.busType s.weather
    let energyUsed := distanceToTravel * efficiency * MIDDAY_CHARGING.energyCostDeadhead
    let newKwh := max 0 (bus.batteryKwh - energyUsed)
    let bus : Bus := { bus with
                       batteryKwh := newKwh
                       batteryLevel := newKwh / bus.batteryCapacity * 100
                       energyConsumed := bus.energyConsumed + energyUsed }
    let stats : Stats := { s.stats with
      totalDistance := s.stats.totalDistance + distanceToTravel
      totalEnergyConsumed := s.stats.totalEnergyConsumed + energyUsed }
    let s : SimState := { s with bus := bus, stats := stats }
    if s.bus.batteryKwh ≤ 0 then
      triggerGameOver { s with bus := { s.bus with status := .stranded }
                               route := { s.route with status := .failed } }
    else
      let returnDistance := s.bus.returnDistance.getD 0
      let progress := min 1 (s.bus.returnProgress.getD 0 / returnDistance)
      let newPos :=
        match s.bus.returnPath with
        | some p =>
          if p.length > 1 then interpolatePosition dist p progress
          else
            let startPos := s.bus.chargerDestination.getD s.bus.position
            let endPos := s.bus.returnDestination.getD (0, 0)
            (startPos.1 + (endPos.1 - startPos.1) * progress,
             startPos.2 + (endPos.2 - startPos.2) * progress)
        | none =>
          let startPos := s.bus.chargerDestination.getD s.bus.position
          let endPos := s.bus.returnDestination.getD (0, 0)
          (startPos.1 + (endPos.1 - startPos.1) * progress,
           startPos.2 + (endPos.2 - startPos.2) * progress)
      let s : SimState := { s with bus := { s.bus with position := newPos } }
      if s.bus.returnProgress.getD 0 ≥ returnDistance then
        { s with
          bus := { s.bus with
            position := s.bus.returnDestination.getD (0, 0)
            status := .moving
            chargerDestination := none
            deadheadProgress := none
            deadheadDistance := none
            deadheadStartPosition := none
            deadheadPath := none
            originalPosition := none
            returnDestination := none
            returnDistance := none
            returnProgress := none
            returnPath := none
            needsReturnTrip := false
            targetChargeKwh := none
            chargingRate := none
            chargingKwhPerHour := none }
          route := { s.route with status := .active } }
      else s

/-- The status dispatch of `updateBus`: deadhead and return legs, charging,
the waiting-to-moving start, then movement. -/
def updateBusDispatch (dist : Pos → Pos → ℚ) (now deltaTime : ℚ) (s : SimState) :
    SimState :=
  if s.bus.status = .travelingToCharger then handleDeadheadTravel dist deltaTime s
  else if s.bus.status = .returningFromCharger then
    handleReturnFromCharger dist deltaTime s
  else if s.bus.isCharging then handleCharging deltaTime s
  else
    let s :=
      if s.bus.status = .waiting then
        { s with bus := { s.bus with status := .moving }
                 route := { s.route with status := .active } }
      else s
    if s.bus.status = .moving then moveBus dist now deltaTime s else s

/-- Per-tick update of the single bus (`updateBus`): dwell handling, then
dispatch on status and charging sub-state. -/
def updateBus (dist : Pos → Pos → ℚ) (now deltaTime : ℚ) (s : SimState) :
    SimState :=
  if jsTruthyQ s.bus.dwellUntil ∧ now < s.bus.dwellUntil.getD 0 then s
  else
    let s :=
      if jsTruthyQ s.bus.dwellUntil then
        { s with bus := { s.bus with dwellUntil := none } }
      else s
    updateBusDispatch dist now deltaTime s

/-- One simulation-loop tick for the bus: `simulationLoop` calls `updateBus`
only when the bus is not `completed`. -/
def tickBus (dist : Pos → Pos → ℚ) (now deltaTime : ℚ) (s : SimState) :
    SimState :=
  if s.bus.status = .completed then s else updateBus dist now deltaTime s

/-- Reset the bus and route for a new day with the player-chosen overnight
charge target (`resetBusForNewDay`); the overnight energy and cost are
recorded on the week and stats records. -/
def resetBusForNewDay (bus : Bus) (route : Route) (chargePercent : ℚ)
    (week : Week) (stats : Stats) : Bus × Route × Week × Stats :=
  let currentKwh := bus.batteryKwh
  let targetKwh := chargePercent / 100 * bus.batteryCapacity
  let energyToAdd := max 0 (targetKwh - currentKwh)
  let chargingCost := energyToAdd * FUEL_COSTS.electricOvernight
  let week :=
    if energyToAdd > 0 then
      { week with totalOvernightCost := week.totalOvernightCost + chargingCost }
    else week
  let stats :=
    if energyToAdd > 0 then
      { stats with
        nightlyChargingKwh := stats.nightlyChargingKwh + energyToAdd
        nightlyChargingCost := stats.nightlyChargingCost + chargingCost }
    else stats
  let startPosition :=
    match route.path with
    | p :: _ => p
    | [] => (route.stops.headD { type := .depot, coords := (0, 0), completed := false }).coords
  let bus : Bus := { bus with
    position := startPosition
    progress := 0
    currentStopIndex := 0
    batteryLevel := chargePercent
    batteryKwh := targetKwh
    energyConsumed := 0
    distanceTraveled := 0
    status := .waiting
    dwellUntil := none
    needsMidDayCharge := false
    midDayChargeChecked := false
    arrivedAtSchool := false
    isCharging := false
    usedMidDayCharge := false
    tripPhase := .am
    chargingTimeHours := 0
    chargingRate := none
    chargingKwhPerHour := none
    targetChargeKwh := none
    chargerDestination := none
    needsReturnTrip := false
    returnDestination := none
    returnDistance := none
    returnProgress := none
    returnPath := none
    originalPosition := none
    deadheadProgress := none
    deadheadDistance := none
    deadheadPath := none
    deadheadStartPosition := none
    deadheadEnergyNeeded := none }
  let route : Route := { route with
    stops := route.stops.map (fun st => { st with completed := false })
    status := .waiting
    progress := 0 }
  (bus, route, week, stats)

/-- Nightly decision confirmation (`confirmNightlyCharging`): V2G discharge
first, then the overnight energy to reach the target, recorded via
`recordNightlyCharging` (route regeneration is an external concern). -/
def confirmNightlyCharging (targetPercent v2gAmount v2gEarned : ℚ) (bus : Bus)
    (week : Week) (stats : Stats) (decisions : List NightlyDecision) :
    Week × Stats × List NightlyDecision :=
  let currentBatteryPercent := bus.batteryLevel
  let currentKwh := bus.batteryKwh
  let afterV2GKwh := currentKwh - v2gAmount
  let targetKwh := targetPercent / 100 * bus.batteryCapacity
  let energyToAdd := max 0 (targetKwh - afterV2GKwh)
  let cost := energyToAdd * FUEL_COSTS.electricOvernight
  let stats :=
    if v2gAmount > 0 then
      { stats with v2gEarnings := stats.v2gEarnings + v2gEarned
                   v2gKwhDischarged := stats.v2gKwhDischarged + v2gAmount }
    else stats
  let week :=
    if v2gAmount > 0 then
      { week with totalV2GEarnings := week.totalV2GEarnings + v2gEarned
                  totalV2GKwh := week.totalV2GKwh + v2gAmount }
    else week
  let decision : NightlyDecision :=
    { day := week.currentDay
      targetPercent := targetPercent
      startPercent := currentBatteryPercent
      energyCharged := energyToAdd
      cost := cost
      v2gAmount := v2gAmount
      v2gEarned := v2gEarned }
  let week : Week := { week with totalOvernightCost := week.totalOvernightCost + cost }
  (week, stats, decisions ++ [decision])

/-- Day-level scoring (`calculateDayScore`): base points, the mid-day
bonus/penalty, the overnight-efficiency adjustment, then `addDayScore`. -/
def calculateDayScore (config : Config) (week : Week) (stats : Stats)
    (nightlyDecisions : List NightlyDecision) (score : Score) : Score :=
  let dayPoints := SCORING.dayCompleted
  let breakdown := ["+" ++ toString SCORING.dayCompleted ++ " Day completed"]
  let r1 : ℤ × List String × Score :=
    if stats.midDayCharges > 0 then
      (dayPoints + SCORING.midDayChargePenalty,
       breakdown ++ [toString SCORING.midDayChargePenalty ++ " Mid-day charging"],
       addPenalty score { reason := "Mid-day charging"
                          points := SCORING.midDayChargePenalty
                          day := some week.currentDay })
    else
      (dayPoints + SCORING.noMidDayChargeBonus,
       breakdown ++ ["+" ++ toString SCORING.noMidDayChargeBonus ++ " No mid-day charge"],
       score)
  let r2 : ℤ × List String × Score :=
    match nightlyDecisions.find? (fun d => d.day == week.currentDay) with
    | some lastNightDecision =>
      let targetPercent := lastNightDecision.targetPercent
      let actualUsed := stats.totalEnergyConsumed / config.batteryCapacity * 100
      let endPercent := targetPercent - actualUsed
      if 10 ≤ endPercent ∧ endPercent ≤ 25 then
        (r1.1 + SCORING.efficientChargeBonus,
         r1.2.1 ++ ["+" ++ toString SCORING.efficientChargeBonus ++ " Efficient charging"],
         addBonus r1.2.2 { reason := "Efficient overnight charging"
                           points := SCORING.efficientChargeBonus
                           day := some week.currentDay })
      else if endPercent > 25 then
        let overchargeKwh := (endPercent - 25) / 100 * config.batteryCapacity
        let penalty := jsRound (overchargeKwh * SCORING.overchargePerKwhPenalty)
        (r1.1 + penalty,
         r1.2.1 ++ [toString penalty ++ " Overcharged"],
         r1.2.2)
      else r1
    | none => r1
  addDayScore r2.2.2 { day := week.currentDay, points := r2.1, breakdown := r2.2.1 }

/-- Advance to the next day (`advanceDay`): push the day result, accumulate
the weekly totals, bump the day counter, and look up the new day's weather;
returns whether more days remain. -/
def advanceDay (week : Week) (weather : Weather) (stats : Stats) :
    Week × Weather × Bool :=
  let result : DayResult :=
    { day := week.currentDay
      weather := weather
      midDayCharged := stats.midDayCharges > 0
      cost := stats.electricCost
      distance := stats.totalDistance
      energyConsumed := stats.totalEnergyConsumed }
  let week : Week := { week with
    dayResults := week.dayResults ++ [result]
    totalMidDayCharges := week.totalMidDayCharges + stats.midDayCharges
    totalMidDayCost := week.totalMidDayCost + stats.midDayChargingCost
    currentDay := week.currentDay + 1 }
  let weather :=
    match week.schedule.find? (fun d => d.1 == week.currentDay) with
    | some d => d.2
    | none => weather
  (week, weather, decide (week.currentDay ≤ 3))

/-- The reason string of the perfect-week bonus. -/
def perfectWeekReason : String := "Perfect week - no mid-day charges"

/-- Display names of the difficulty labels. -/
def difficultyName : Difficulty → String
  | .easy => "Easy"
  | .medium => "Medium"
  | .hard => "Hard"
  | .expert => "Expert"

/-- Week-final scoring (`calculateFinalScore`): route-prediction bonus,
perfect-week bonus, difficulty bonus. -/
def calculateFinalScore (config : Config) (week : Week) (score : Score) : Score :=
  let efficiency := getEfficiency config.busType .extreme
  let usableCapacity := config.batteryCapacity * (1 - BATTERY_CONFIG.safetyBuffer)
  let optimalOneWay : ℤ := ⌊usableCapacity / efficiency / 2⌋
  let score :=
    if |config.guessDistance - (optimalOneWay : ℚ)| ≤ 3 then
      addBonus score { reason := "Perfect route prediction"
                       points := SCORING.perfectRoutePrediction, day := none }
    else score
  let score :=
    if week.totalMidDayCharges = 0 then
      addBonus score { reason := perfectWeekReason
                       points := SCORING.perfectWeekBonus, day := none }
    else score
  let multiplier := SCORING.difficultyMultiplier (patternDifficulty config.weatherPattern)
  if multiplier ≠ 1 then
    let bonusFromDifficulty := jsRound ((score.total : ℚ) * (multiplier - 1))
    if bonusFromDifficulty > 0 then
      addBonus score { reason := difficultyName (patternDifficulty config.weatherPattern)
                         ++ " difficulty bonus"
                       points := bonusFromDifficulty, day := none }
    else score
  else score

/-- The battery invariant of the specification: a positive capacity, a
battery charge between zero and the capacity, and a derived battery level of
`100 · batteryKwh / batteryCapacity`. -/
def batteryWF (bus : Bus) : Prop :=
  0 < bus.batteryCapacity ∧ 0 ≤ bus.batteryKwh ∧
  bus.batteryKwh ≤ bus.batteryCapacity ∧
  bus.batteryLevel = 100 * bus.batteryKwh / bus.batteryCapacity

/-- The battery-related fields of a bus, bundled. -/
def batteryState (bus : Bus) : ℚ × ℚ × ℚ :=
  (bus.batteryCapacity, bus.batteryKwh, bus.batteryLevel)

/-- A freshly constructed Type A bus at full battery, as `initializeBuses`
builds one for a 100 kWh configuration. -/
def bus0 : Bus :=
  { busType := .A, position := (0, 0), progress := 0, currentStopIndex := 0
    batteryCapacity := 100, batteryLevel := 100, batteryKwh := 100
    energyConsumed := 0, distanceTraveled := 0, status := .waiting
    dwellUntil := none, needsMidDayCharge := false, midDayChargeChecked := false
    arrivedAtSchool := false, isCharging := false, usedMidDayCharge := false
    tripPhase := .am, chargingTimeHours := 0, chargingRate := none
    chargingKwhPerHour := none, targetChargeKwh := none, chargerDestination := none
    needsReturnTrip := false, returnDestination := none, returnDistance := none
    returnProgress := none, returnPath := none, originalPosition := none
    deadheadProgress := none, deadheadDistance := none, deadheadPath := none
    deadheadStartPosition := none, deadheadEnergyNeeded := none }

/-- Zeroed daily statistics, as `resetStats` produces. -/
def stats0 : Stats :=
  { totalDistance := 0, totalEnergyConsumed := 0, electricCost := 0
    midDayCharges := 0, midDayChargingCost := 0, midDayChargingKwh := 0
    nightlyChargingKwh := 0, nightlyChargingCost := 0, deadheadMiles := 0
    completedRoutes := 0, co2Avoided := 0, pickupsCompleted := 0
    v2gEarnings := 0, v2gKwhDischarged := 0 }

/-- A fresh week record, as `resetWeek` produces (schedule elided). -/
def week0 : Week :=
  { currentDay := 1, schedule := [], dayResults := [], totalMidDayCharges := 0
    totalMidDayCost := 0, totalOvernightCost := 0, totalV2GEarnings := 0
    totalV2GKwh := 0 }

/-- A fresh score record. -/
def score0 : Score :=
  { total := 0, dayScores := [], bonuses := [], penalties := [] }

/-- A 40-mile round-trip route with a two-point path and a single school
stop. -/
def route1 : Route :=
  { distance := 40, path := [(0, 0), (1, 0)]
    stops := [{ type := .school, coords := (5, 5), completed := false }]
    status := .active, progress := 0 }

/-- A concrete stand-in for the trigonometric `haversineDistance`: the
constant function 1. -/
def distOne : Pos → Pos → ℚ := fun _ _ => 1

/-- A default scenario configuration: Type A, 100 kWh, fall pattern. -/
def config1 : Config :=
  { busType := .A, batteryCapacity := 100, guessDistance := 25
    weatherPattern := .fall }

/-- A moving bus at exactly 50% progress with the mid-day check still
pending. -/
def sHalf : SimState :=
  { bus := { bus0 with status := .moving, progress := 0.5 }
    route := route1, stats := stats0, weather := .fair, currentTime := 9
    tripPhase := .am, pendingCharge := none, running := true, gameOver := false }

/-- The mid-day scenario of the specification: at school, 25 kWh of a 100 kWh
battery, extreme weather. -/
def sMidday : SimState :=
  { sHalf with
    bus := { sHalf.bus with batteryKwh := 25, batteryLevel := 25, status := .atSchool }
    weather := .extreme }

/-- A charging bus: 20 kWh, a 50 kWh/h station, a 60 kWh target. -/
def busCharging : Bus :=
  { bus0 with
    isCharging := true
    status := .charging
    batteryKwh := 20
    batteryLevel := 20
    chargingKwhPerHour := some 50
    targetChargeKwh := some 60 }

/-- The simulation state around `busCharging`. -/
def sCharging : SimState := { sHalf with bus := busCharging }

/-- A bus at 20 kWh before the overnight reset. -/
def busLow : Bus := { bus0 with batteryKwh := 20, batteryLevel := 20 }

/-- A moving bus at 50% progress whose battery is empty. -/
def sDead : SimState :=
  { sHalf with bus := { sHalf.bus with batteryKwh := 0, batteryLevel := 0 } }

/-- A stranded bus mid-route. -/
def sStranded : SimState :=
  { sHalf with bus := { sHalf.bus with status := .stranded } }

/-- A bus that has completed its route. -/
def sCompleted : SimState :=
  { sHalf with bus := { sHalf.bus with status := .completed } }

/-- A moving bus whose mid-day check has already run. -/
def sChecked : SimState :=
  { sHalf with bus := { sHalf.bus with midDayChargeChecked := true } }

/-- Day-score formula as the specification words it (for comparison with
`calculateDayScore`): the overnight-charging-efficiency adjustment —
the efficiency bonus when `endPercent ∈ [10,25]`, the per-kWh penalty on the
portion above 25% when `endPercent > 25`. -/
def specOvernightAdjustment (config : Config) (week : Week) (stats : Stats)
    (nightlyDecisions : List NightlyDecision) : ℤ :=
  match nightlyDecisions.find? (fun d => d.day == week.currentDay) with
  | some d =>
    let endPercent :=
      d.targetPercent - stats.totalEnergyConsumed / config.batteryCapacity * 100
    if 10 ≤ endPercent ∧ endPercent ≤ 25 then SCORING.efficientChargeBonus
    else if endPercent > 25 then
      jsRound ((endPercent - 25) / 100 * config.batteryCapacity *
        SCORING.overchargePerKwhPenalty)
    else 0
  | none => 0

/-- Day-score formula as the specification words it (for comparison with
`calculateDayScore`): base completion points, plus the no-mid-day-charge
bonus or the mid-day-charge penalty, plus the overnight adjustment. -/
def specDayPoints (config : Config) (week : Week) (stats : Stats)
    (nightlyDecisions : List NightlyDecision) : ℤ :=
  SCORING.dayCompleted +
    (if stats.midDayCharges > 0 then SCORING.midDayChargePenalty
     else SCORING.noMidDayChargeBonus) +
    specOvernightAdjustment config week stats nightlyDecisions

/-- The extra points `calculateDayScore` adds to the running total beyond the
recorded day score, through its side calls to `addPenalty` and `addBonus`. -/
def extraTotalEffects (config : Config) (week : Week) (stats : Stats)
    (nightlyDecisions : List NightlyDecision) : ℤ :=
  (if stats.midDayCharges > 0 then SCORING.midDayChargePenalty else 0) +
    (match nightlyDecisions.find? (fun d => d.day == week.currentDay) with
     | some d =>
       let endPercent :=
         d.targetPercent - stats.totalEnergyConsumed / config.batteryCapacity * 100
       if 10 ≤ endPercent ∧ endPercent ≤ 25 then SCORING.efficientChargeBonus else 0
     | none => 0)

/-- Daily statistics recording exactly one mid-day charge. -/
def statsMid1 : Stats := { stats0 with midDayCharges := 1 }

/-- C8: the progress-to-time mapper satisfies: for progress below 0.5 and not
at school, the simulated hour interpolates the AM window `5 + (p/0.5)·4`;
otherwise, when at school or charging time has accumulated, it is
`9 + min(chargingElapsedHours, 3)`; otherwise (then necessarily progress is
at least 0.5) it interpolates the PM window `12 + ((p−0.5)/0.5)·4`. -/
theorem calculateTimeFromProgress_spec (p ch : ℚ) (atSchool : Bool) :
    (p < 0.5 → atSchool = false →
      calculateTimeFromProgress p ch atSchool = 5 + p / 0.5 * 4) ∧
    (¬(p < 0.5 ∧ atSchool = false) → (atSchool = true ∨ 0 < ch) →
      calculateTimeFromProgress p ch atSchool = 9 + min ch 3) ∧
    (¬(p < 0.5 ∧ atSchool = false) → ¬(atSchool = true ∨ 0 < ch) →
      0.5 ≤ p ∧ calculateTimeFromProgress p ch atSchool = 12 + (p - 0.5) / 0.5 * 4) := by
  refine ⟨?_, ?_, ?_⟩
  · intro hp hs
    rw [calculateTimeFromProgress, if_pos (by simp [hp, hs])]
    norm_num [TIME_WINDOWS.amTripStart, TIME_WINDOWS.amTripEnd]
  · intro h1 h2
    rw [calculateTimeFromProgress, if_neg (by simpa using h1), if_pos (by simpa using h2)]
    norm_num [TIME_WINDOWS.midDayStart, TIME_WINDOWS.midDayEnd]
  · intro h1 h2
    push_neg at h2
    have hs : atSchool = false := by
      cases atSchool
      · rfl
      · exact absurd rfl h2.1
    have hple : ¬p < 0.5 := fun hp => h1 ⟨hp, hs⟩
    refine ⟨le_of_not_lt hple, ?_⟩
    rw [calculateTimeFromProgress, if_neg (by simpa using h1), if_neg (by simpa [hs] using h2.2)]
    norm_num [TIME_WINDOWS.pmTripStart, TIME_WINDOWS.pmTripEnd]

/-- Closed witness for `calculateTimeFromProgress_spec` at progress 0.25,
at-school with 2 elapsed charging hours, and progress 0.75. -/
theorem calculateTimeFromProgress_spec_witness :
    calculateTimeFromProgress 0.25 0 false = 5 + 0.25 / 0.5 * 4 ∧
    calculateTimeFromProgress 0.6 2 true = 9 + min 2 3 ∧
    (0.5 ≤ (0.75 : ℚ) ∧
      calculateTimeFromProgress 0.75 0 false = 12 + (0.75 - 0.5) / 0.5 * 4) := by
  refine ⟨(calculateTimeFromProgress_spec 0.25 0 false).1 (by norm_num) rfl,
          (calculateTimeFromProgress_spec 0.6 2 true).2.1 (by norm_num) (Or.inl rfl),
          (calculateTimeFromProgress_spec 0.75 0 false).2.2 (by norm_num) (by norm_num)⟩

/-- C6: resetting a bus for a new day with a chosen charge target `T`
(0 ≤ T ≤ 100) yields `batteryLevel = T` and `batteryKwh = T/100·capacity`,
with overnight energy added `max 0 (T/100·capacity − previous batteryKwh)`
recorded on the stats and its cost at the overnight rate added to the week's
overnight cost. -/
theorem resetBusForNewDay_roundtrip (bus : Bus) (route : Route) (T : ℚ)
    (week : Week) (stats : Stats) (hT0 : 0 ≤ T) (hT1 : T ≤ 100) :
    (resetBusForNewDay bus route T week stats).1.batteryLevel = T ∧
    (resetBusForNewDay bus route T week stats).1.batteryKwh =
      T / 100 * bus.batteryCapacity ∧
    (resetBusForNewDay bus route T week stats).2.2.2.nightlyChargingKwh =
      stats.nightlyChargingKwh + max 0 (T / 100 * bus.batteryCapacity - bus.batteryKwh) ∧
    (resetBusForNewDay bus route T week stats).2.2.1.totalOvernightCost =
      week.totalOvernightCost +
        max 0 (T / 100 * bus.batteryCapacity - bus.batteryKwh) *
          FUEL_COSTS.electricOvernight := by
  simp only [resetBusForNewDay]
  by_cases hx : max 0 (T / 100 * bus.batteryCapacity - bus.batteryKwh) > 0
  · simp [hx]
  · have h0 : max 0 (T / 100 * bus.batteryCapacity - bus.batteryKwh) = 0 :=
      le_antisymm (le_of_not_lt hx) (le_max_left _ _)
    simp [hx, h0]

/-- Closed witness for `resetBusForNewDay_roundtrip`: target 40%, 20 kWh
current, 100 kWh capacity gives 20 kWh added and cost 20 × overnight rate. -/
theorem resetBusForNewDay_roundtrip_witness :
    (resetBusForNewDay busLow route1 40 week0 stats0).1.batteryLevel = 40 ∧
    (resetBusForNewDay busLow route1 40 week0 stats0).1.batteryKwh = 40 ∧
    (resetBusForNewDay busLow route1 40 week0 stats0).2.2.2.nightlyChargingKwh = 20 ∧
    (resetBusForNewDay busLow route1 40 week0 stats0).2.2.1.totalOvernightCost =
      20 * FUEL_COSTS.electricOvernight := by
  have h := resetBusForNewDay_roundtrip busLow route1 40 week0 stats0
    (by norm_num) (by norm_num)
  refine ⟨h.1, ?_, ?_, ?_⟩
  · rw [h.2.1]; norm_num [busLow, bus0]
  · rw [h.2.2.1]; norm_num [busLow, bus0, stats0]
  · rw [h.2.2.2]; norm_num [busLow, bus0, week0]

/-- C10: if the bus's battery exceeds the chosen overnight target at reset,
`resetBusForNewDay` still sets `batteryKwh` to exactly `target/100·capacity`
(surplus discarded), records zero added energy and zero cost, and leaves the
week record — including the V2G earnings — untouched. -/
theorem resetBusForNewDay_discards_surplus (bus : Bus) (route : Route) (T : ℚ)
    (week : Week) (stats : Stats)
    (h : T / 100 * bus.batteryCapacity < bus.batteryKwh) :
    (resetBusForNewDay bus route T week stats).1.batteryKwh =
      T / 100 * bus.batteryCapacity ∧
    (resetBusForNewDay bus route T week stats).1.batteryLevel = T ∧
    (resetBusForNewDay bus route T week stats).2.2.1 = week ∧
    (resetBusForNewDay bus route T week stats).2.2.2 = stats := by
  have h0 : max 0 (T / 100 * bus.batteryCapacity - bus.batteryKwh) = 0 :=
    max_eq_left (by linarith)
  simp [resetBusForNewDay, h0]

/-- Closed witness for `resetBusForNewDay_discards_surplus`: a 90 kWh bus
reset to a 40% target ends at 40 kWh with nothing recorded. -/
theorem resetBusForNewDay_discards_surplus_witness :
    (resetBusForNewDay { bus0 with batteryKwh := 90 } route1 40 week0 stats0).1.batteryKwh = 40 ∧
    (resetBusForNewDay { bus0 with batteryKwh := 90 } route1 40 week0 stats0).1.batteryLevel = 40 ∧
    (resetBusForNewDay { bus0 with batteryKwh := 90 } route1 40 week0 stats0).2.2.1 = week0 ∧
    (resetBusForNewDay { bus0 with batteryKwh := 90 } route1 40 week0 stats0).2.2.2 = stats0 := by
  have h := resetBusForNewDay_discards_surplus { bus0 with batteryKwh := 90 }
    route1 40 week0 stats0 (by norm_num [bus0])
  refine ⟨?_, h.2.1, h.2.2.1, h.2.2.2⟩
  rw [h.1]; norm_num [bus0]

/-- C3: the mid-day charging check computes the remaining distance as half
the round trip, the energy needed as that distance times the weather
efficiency, and requires charging exactly when the predicted depot battery
percentage `(batteryKwh − energyNeeded)/capacity·100` is below 15; in that
case the recorded energy to add is
`max 0 (0.15·capacity + energyNeeded − batteryKwh)`. -/
theorem checkChargingNeeds_spec (s : SimState)
    (h1 : s.bus.isCharging = false)
    (h2 : s.bus.midDayChargeChecked = false)
    (h3 : s.bus.status ≠ .travelingToCharger)
    (h4 : s.route.stops.any (fun st => st.type == StopType.school) = true) :
    ((checkChargingNeeds s).2 = true ↔
      (s.bus.batteryKwh - s.route.distance / 2 * getEfficiency s.bus.busType s.weather) /
          s.bus.batteryCapacity * 100 < 15) ∧
    ((checkChargingNeeds s).2 = true →
      (checkChargingNeeds s).1.pendingCharge = some
        { energyNeeded := max 0 (0.15 * s.bus.batteryCapacity +
            s.route.distance / 2 * getEfficiency s.bus.busType s.weather - s.bus.batteryKwh)
          currentBattery := s.bus.batteryLevel
          timeRemaining := TIME_WINDOWS.midDayEnd - s.currentTime }) := by
  rw [checkChargingNeeds, if_neg (by simp [h1, h2, h3]), if_neg (by simp [h4])]
  dsimp only
  constructor
  · constructor
    · intro h
      by_contra hc
      rw [if_neg (by norm_num [BATTERY_CONFIG.minReturnCharge]; linarith [not_lt.mp hc])] at h
      exact Bool.false_ne_true h
    · intro hc
      rw [if_pos (by norm_num [BATTERY_CONFIG.minReturnCharge]; linarith)]
  · intro h
    split_ifs at h ⊢ with hc
    · dsimp only [stopSimulation]
      congr 1
      have : s.bus.batteryCapacity * BATTERY_CONFIG.minReturnCharge =
          0.15 * s.bus.batteryCapacity := by
        norm_num [BATTERY_CONFIG.minReturnCharge]; ring
      rw [this]

/-- Closed witness for `checkChargingNeeds_spec`: remaining one-way distance
20 mi at efficiency 1.9 kWh/mi with 25 kWh of a 100 kWh battery requires
charging, and the energy to add is 28 kWh. -/
theorem checkChargingNeeds_spec_witness :
    (checkChargingNeeds sMidday).2 = true ∧
    (checkChargingNeeds sMidday).1.pendingCharge = some
      { energyNeeded := 28, currentBattery := 25, timeRemaining := 3 } := by
  have h := checkChargingNeeds_spec sMidday rfl rfl (by decide) (by decide)
  have hneed : (checkChargingNeeds sMidday).2 = true := by
    apply h.1.mpr
    norm_num [sMidday, sHalf, bus0, route1, getEfficiency, ESB_EFFICIENCY.typeA]
  refine ⟨hneed, ?_⟩
  rw [h.2 hneed]
  norm_num [sMidday, sHalf, bus0, route1, getEfficiency, ESB_EFFICIENCY.typeA,
    TIME_WINDOWS.midDayEnd]

/-- C4: a charging bus stops charging after a tick exactly when the updated
battery reaches the target, the updated level reaches 95%, or the
accumulated charging time reaches the 3-hour mid-day window; on exit the
status becomes `returning-from-charger` when a return trip is pending
(and its destination recorded), otherwise `moving` — never `stranded`, and
the game-over flag is untouched (under-charged departure is non-fatal). -/
theorem handleCharging_exit_spec (dt : ℚ) (s : SimState)
    (hch : s.bus.isCharging = true) :
    ((handleCharging dt s).bus.isCharging = false ↔
      (min s.bus.batteryCapacity (s.bus.batteryKwh +
          jsOrQ s.bus.chargingKwhPerHour BATTERY_CONFIG.chargingRateKwhPerHour *
            (dt / (3600 * 1000))) ≥
        jsOrQ s.bus.targetChargeKwh (s.bus.batteryCapacity * 0.80) ∨
       min s.bus.batteryCapacity (s.bus.batteryKwh +
          jsOrQ s.bus.chargingKwhPerHour BATTERY_CONFIG.chargingRateKwhPerHour *
            (dt / (3600 * 1000))) / s.bus.batteryCapacity * 100 ≥ 95 ∨
       s.bus.chargingTimeHours + dt / (3600 * 1000) ≥
         MIDDAY_CHARGING.maxChargingDuration)) ∧
    ((handleCharging dt s).bus.isCharging = false →
      (handleCharging dt s).bus.status =
        (if s.bus.needsReturnTrip ∧ s.bus.returnDestination.isSome then
          BusStatus.returningFromCharger else BusStatus.moving) ∧
      (handleCharging dt s).bus.status ≠ .stranded ∧
      (handleCharging dt s).gameOver = s.gameOver) := by
  rw [handleCharging]
  dsimp only
  constructor
  · constructor
    · intro h
      by_contra hc
      rw [if_neg hc] at h
      have h' : s.bus.isCharging = false := h
      rw [hch] at h'
      exact absurd h' (by simp)
    · intro hc
      rw [if_pos hc]
      split_ifs <;> rfl
  · intro h
    split_ifs at h ⊢ with hcond hret
    · exact ⟨rfl, by simp, rfl⟩
    · exact ⟨rfl, by simp, rfl⟩
    all_goals
      have h' : s.bus.isCharging = false := h
      rw [hch] at h'
      exact absurd h' (by simp)

/-- Closed witness for `handleCharging_exit_spec`: a 20 kWh bus charging at
50 kWh/h toward a 60 kWh target exits after a one-hour tick and resumes
`moving`. -/
theorem handleCharging_exit_spec_witness :
    (handleCharging 3600000 sCharging).bus.isCharging = false ∧
    (handleCharging 3600000 sCharging).bus.status = .moving := by
  have h := handleCharging_exit_spec 3600000 sCharging rfl
  have hex : (handleCharging 3600000 sCharging).bus.isCharging = false := by
    apply h.1.mpr
    left
    norm_num [sCharging, sHalf, busCharging, bus0, jsOrQ]
  refine ⟨hex, ?_⟩
  have h2 := (h.2 hex).1
  rw [h2]
  norm_num [sCharging, sHalf, busCharging, bus0]

/-- C5 counterexample: with one mid-day charge and no nightly decision, the
recorded day score is 50 points, yet the running total rises by 0, not by
the day score — `addPenalty` inside `calculateDayScore` adds the mid-day
penalty to the total a second time. -/
theorem calculateDayScore_total_counterexample :
    ((calculateDayScore config1 week0 statsMid1 [] score0).dayScores.map
      (fun d => d.points)) = [50] ∧
    (calculateDayScore config1 week0 statsMid1 [] score0).total = 0 ∧
    score0.total = 0 ∧ ¬((0 : ℤ) = 0 + 50) := by
  refine ⟨?_, ?_, rfl, by decide⟩ <;>
    simp [calculateDayScore, config1, week0, statsMid1, stats0, score0,
      addDayScore, addPenalty, SCORING.dayCompleted, SCORING.midDayChargePenalty]

/-- C5 (amended): the recorded day score equals base completion points plus
the mid-day bonus/penalty plus the overnight-efficiency adjustment, but the
running total increases by the day score plus one extra copy of the mid-day
penalty (when a charge occurred) and one extra copy of the efficiency bonus
(when earned), because `addPenalty`/`addBonus` also add to the total. -/
theorem calculateDayScore_spec (config : Config) (week : Week) (stats : Stats)
    (nightlyDecisions : List NightlyDecision) (score : Score) :
    ((calculateDayScore config week stats nightlyDecisions score).dayScores.map
        (fun d => (d.day, d.points)) =
      score.dayScores.map (fun d => (d.day, d.points)) ++
        [(week.currentDay, specDayPoints config week stats nightlyDecisions)]) ∧
    (calculateDayScore config week stats nightlyDecisions score).total =
      score.total + specDayPoints config week stats nightlyDecisions +
        extraTotalEffects config week stats nightlyDecisions := by
  simp only [calculateDayScore, specDayPoints, specOvernightAdjustment,
    extraTotalEffects, addDayScore, addPenalty, addBonus]
  rcases hf : nightlyDecisions.find? (fun d => d.day == week.currentDay) with _ | d <;>
    rw [hf] <;> dsimp only <;> split_ifs <;>
      constructor <;> (try simp) <;> (try ring)

/-- C9: provided the score does not already carry it, the week-final score
includes the perfect-week bonus exactly once if and only if the cumulative
`totalMidDayCharges` is zero; and `advanceDay` accumulates each day's
mid-day charges into that cumulative count. -/
theorem perfectWeekBonus_iff (config : Config) (week : Week) (score : Score)
    (weather : Weather) (stats : Stats)
    (h : score.bonuses.countP (fun b => b.reason == perfectWeekReason) = 0) :
    ((calculateFinalScore config week score).bonuses.countP
        (fun b => b.reason == perfectWeekReason) =
      if week.totalMidDayCharges = 0 then 1 else 0) ∧
    (advanceDay week weather stats).1.totalMidDayCharges =
      week.totalMidDayCharges + stats.midDayCharges := by
  have single : ∀ (e : ScoreEntry) (sc : Score),
      (addBonus sc e).bonuses.countP (fun b => b.reason == perfectWeekReason) =
        sc.bonuses.countP (fun b => b.reason == perfectWeekReason) +
          (if e.reason == perfectWeekReason then 1 else 0) := by
    intro e sc
    simp [addBonus, List.countP_append, List.countP_cons]
  have hdiff : ∀ d : Difficulty,
      ((difficultyName d ++ " difficulty bonus") == perfectWeekReason) = false := by
    intro d
    cases d <;> decide
  refine ⟨?_, by simp [advanceDay]⟩
  simp only [calculateFinalScore]
  split_ifs with h1 h2 h3 h4 h5 h6 h7 h8 h9 h10 h11 h12 <;>
    simp_all [single, hdiff, perfectWeekReason]

/-- Closed witness for `perfectWeekBonus_iff`: a zero-charge week earns the
perfect-week bonus once, a two-charge week earns it zero times, and one day
with one mid-day charge raises the cumulative count to 1. -/
theorem perfectWeekBonus_iff_witness :
    (calculateFinalScore config1 week0 score0).bonuses.countP
        (fun b => b.reason == perfectWeekReason) = 1 ∧
    (calculateFinalScore config1 { week0 with totalMidDayCharges := 2 }
        score0).bonuses.countP (fun b => b.reason == perfectWeekReason) = 0 ∧
    (advanceDay week0 .fair statsMid1).1.totalMidDayCharges = 1 := by
  have h1 := perfectWeekBonus_iff config1 week0 score0 .fair statsMid1 rfl
  have h2 := perfectWeekBonus_iff config1 { week0 with totalMidDayCharges := 2 }
    score0 .fair statsMid1 rfl
  refine ⟨?_, ?_, ?_⟩
  · rw [h1.1]; norm_num [week0]
  · rw [h2.1]; norm_num [week0]
  · rw [h1.2]; norm_num [week0, statsMid1, stats0]

/-- The efficiency table is nonnegative in every entry. -/
theorem getEfficiency_nonneg (t : BusType) (w : Weather) : 0 ≤ getEfficiency t w := by
  cases t <;> cases w <;>
    norm_num [getEfficiency, ESB_EFFICIENCY.typeA, ESB_EFFICIENCY.typeC]

/-- The battery invariant transfers along equal battery fields. -/
theorem batteryWF_congr {b b' : Bus}
    (hcap : b'.batteryCapacity = b.batteryCapacity)
    (hk : b'.batteryKwh = b.batteryKwh)
    (hl : b'.batteryLevel = b.batteryLevel)
    (hw : batteryWF b) : batteryWF b' := by
  unfold batteryWF at hw ⊢
  rw [hcap, hk, hl]
  exact hw

/-- A zeroed battery with positive capacity satisfies the invariant. -/
theorem batteryWF_zero {b' : Bus} (hcap : 0 < b'.batteryCapacity)
    (hk : b'.batteryKwh = 0) (hl : b'.batteryLevel = 0) : batteryWF b' := by
  refine ⟨hcap, by rw [hk], by rw [hk]; exact hcap.le, by rw [hl, hk]; ring⟩

/-- Discharging by a nonnegative amount, clamped at zero, preserves the
battery invariant. -/
theorem batteryWF_discharge {b : Bus} (e : ℚ) (he : 0 ≤ e) (hw : batteryWF b)
    {b' : Bus} (hcap : b'.batteryCapacity = b.batteryCapacity)
    (hk : b'.batteryKwh = max 0 (b.batteryKwh - e))
    (hl : b'.batteryLevel = max 0 (b.batteryKwh - e) / b.batteryCapacity * 100) :
    batteryWF b' := by
  obtain ⟨h1, h2, h3, h4⟩ := hw
  refine ⟨hcap ▸ h1, hk ▸ le_max_left _ _, ?_, ?_⟩
  · rw [hk, hcap]
    exact max_le h1.le (by linarith)
  · rw [hl, hk, hcap]
    ring

/-- Charging by a nonnegative amount, clamped at the capacity, preserves the
battery invariant. -/
theorem batteryWF_charge {b : Bus} (e : ℚ) (he : 0 ≤ e) (hw : batteryWF b)
    {b' : Bus} (hcap : b'.batteryCapacity = b.batteryCapacity)
    (hk : b'.batteryKwh = min b.batteryCapacity (b.batteryKwh + e))
    (hl : b'.batteryLevel =
      min b.batteryCapacity (b.batteryKwh + e) / b.batteryCapacity * 100) :
    batteryWF b' := by
  obtain ⟨h1, h2, h3, h4⟩ := hw
  refine ⟨hcap ▸ h1, ?_, ?_, by rw [hl, hk, hcap]; ring⟩
  · rw [hk]
    exact le_min h1.le (by linarith)
  · rw [hk, hcap]
    exact min_le_left _ _

/-- The mid-day check never touches the battery, the progress, the position
or the stop index. -/
theorem checkChargingNeeds_preserved (s : SimState) :
    (checkChargingNeeds s).1.bus.batteryKwh = s.bus.batteryKwh ∧
    (checkChargingNeeds s).1.bus.batteryLevel = s.bus.batteryLevel ∧
    (checkChargingNeeds s).1.bus.batteryCapacity = s.bus.batteryCapacity ∧
    (checkChargingNeeds s).1.bus.progress = s.bus.progress ∧
    (checkChargingNeeds s).1.bus.position = s.bus.position ∧
    (checkChargingNeeds s).1.bus.currentStopIndex = s.bus.currentStopIndex := by
  simp only [checkChargingNeeds, stopSimulation]
  split_ifs <;> simp

/-- With the checked-once guard already set, the mid-day check is the
identity and reports no charging need. -/
theorem checkChargingNeeds_of_checked (s : SimState)
    (h : s.bus.midDayChargeChecked = true) :
    checkChargingNeeds s = (s, false) := by
  rw [checkChargingNeeds, if_pos (by simp [h])]

/-- Stop-arrival processing never touches the battery, the progress, the
position or the stop index. -/
theorem processStopArrival_preserved (now : ℚ) (s : SimState) (stop : Stop) :
    (processStopArrival now s stop).bus.batteryKwh = s.bus.batteryKwh ∧
    (processStopArrival now s stop).bus.batteryLevel = s.bus.batteryLevel ∧
    (processStopArrival now s stop).bus.batteryCapacity = s.bus.batteryCapacity ∧
    (processStopArrival now s stop).bus.progress = s.bus.progress ∧
    (processStopArrival now s stop).bus.position = s.bus.position ∧
    (processStopArrival now s stop).bus.currentStopIndex = s.bus.currentStopIndex := by
  obtain ⟨e1, e2, e3, e4, e5, e6⟩ := checkChargingNeeds_preserved
    { s with bus := { s.bus with arrivedAtSchool := true, status := .atSchool } }
  simp only [processStopArrival]
  split_ifs <;> simp_all

/-- Stop-arrival processing keeps the checked-once guard set. -/
theorem processStopArrival_checked_of_checked (now : ℚ) (s : SimState) (stop : Stop)
    (h : s.bus.midDayChargeChecked = true) :
    (processStopArrival now s stop).bus.midDayChargeChecked = true := by
  rw [processStopArrival, if_neg (by simp [h])]
  split_ifs <;> simp [h]

theorem processStopArrival_batteryKwh (now : ℚ) (s : SimState) (stop : Stop) :
    (processStopArrival now s stop).bus.batteryKwh = s.bus.batteryKwh :=
  (processStopArrival_preserved now s stop).1

theorem processStopArrival_batteryLevel (now : ℚ) (s : SimState) (stop : Stop) :
    (processStopArrival now s stop).bus.batteryLevel = s.bus.batteryLevel :=
  (processStopArrival_preserved now s stop).2.1

theorem processStopArrival_batteryCapacity (now : ℚ) (s : SimState) (stop : Stop) :
    (processStopArrival now s stop).bus.batteryCapacity = s.bus.batteryCapacity :=
  (processStopArrival_preserved now s stop).2.2.1

theorem processStopArrival_progress (now : ℚ) (s : SimState) (stop : Stop) :
    (processStopArrival now s stop).bus.progress = s.bus.progress :=
  (processStopArrival_preserved now s stop).2.2.2.1

theorem processStopArrival_currentStopIndex (now : ℚ) (s : SimState) (stop : Stop) :
    (processStopArrival now s stop).bus.currentStopIndex = s.bus.currentStopIndex :=
  (processStopArrival_preserved now s stop).2.2.2.2.2

/-- The stop-scan loop never touches the battery charge. -/
theorem checkStopArrivalsGo_batteryKwh (dist : Pos → Pos → ℚ) (now : ℚ)
    (fuel : ℕ) : ∀ (k : ℕ) (s : SimState),
    (checkStopArrivalsGo dist now fuel k s).bus.batteryKwh = s.bus.batteryKwh := by
  induction fuel with
  | zero => intro k s; rfl
  | succ n ih =>
    intro k s
    rw [checkStopArrivalsGo]
    split_ifs with hg
    · cases hget : s.route.stops.get? s.bus.currentStopIndex with
      | none => rfl
      | some stop =>
        dsimp only
        split_ifs with hc hnear
        · rw [ih]
        · rw [ih]; simp [processStopArrival_batteryKwh]
        · rfl
    · rfl

/-- The stop-scan loop never touches the battery level. -/
theorem checkStopArrivalsGo_batteryLevel (dist : Pos → Pos → ℚ) (now : ℚ)
    (fuel : ℕ) : ∀ (k : ℕ) (s : SimState),
    (checkStopArrivalsGo dist now fuel k s).bus.batteryLevel = s.bus.batteryLevel := by
  induction fuel with
  | zero => intro k s; rfl
  | succ n ih =>
    intro k s
    rw [checkStopArrivalsGo]
    split_ifs with hg
    · cases hget : s.route.stops.get? s.bus.currentStopIndex with
      | none => rfl
      | some stop =>
        dsimp only
        split_ifs with hc hnear
        · rw [ih]
        · rw [ih]; simp [processStopArrival_batteryLevel]
        · rfl
    · rfl

/-- The stop-scan loop never touches the battery capacity. -/
theorem checkStopArrivalsGo_batteryCapacity (dist : Pos → Pos → ℚ) (now : ℚ)
    (fuel : ℕ) : ∀ (k : ℕ) (s : SimState),
    (checkStopArrivalsGo dist now fuel k s).bus.batteryCapacity =
      s.bus.batteryCapacity := by
  induction fuel with
  | zero => intro k s; rfl
  | succ n ih =>
    intro k s
    rw [checkStopArrivalsGo]
    split_ifs with hg
    · cases hget : s.route.stops.get? s.bus.currentStopIndex with
      | none => rfl
      | some stop =>
        dsimp only
        split_ifs with hc hnear
        · rw [ih]
        · rw [ih]; simp [processStopArrival_batteryCapacity]
        · rfl
    · rfl

/-- The stop-scan loop never touches the route progress. -/
theorem checkStopArrivalsGo_progress (dist : Pos → Pos → ℚ) (now : ℚ)
    (fuel : ℕ) : ∀ (k : ℕ) (s : SimState),
    (checkStopArrivalsGo dist now fuel k s).bus.progress = s.bus.progress := by
  induction fuel with
  | zero => intro k s; rfl
  | succ n ih =>
    intro k s
    rw [checkStopArrivalsGo]
    split_ifs with hg
    · cases hget : s.route.stops.get? s.bus.currentStopIndex with
      | none => rfl
      | some stop =>
        dsimp only
        split_ifs with hc hnear
        · rw [ih]
        · rw [ih]; simp [processStopArrival_progress]
        · rfl
    · rfl

/-- The stop-scan loop only ever advances the stop index. -/
theorem checkStopArrivalsGo_idx_mono (dist : Pos → Pos → ℚ) (now : ℚ)
    (fuel : ℕ) : ∀ (k : ℕ) (s : SimState),
    s.bus.currentStopIndex ≤
      (checkStopArrivalsGo dist now fuel k s).bus.currentStopIndex := by
  induction fuel with
  | zero => intro k s; exact le_refl _
  | succ n ih =>
    intro k s
    rw [checkStopArrivalsGo]
    split_ifs with hg
    · cases hget : s.route.stops.get? s.bus.currentStopIndex with
      | none => exact le_refl _
      | some stop =>
        dsimp only
        split_ifs with hc hnear
        · refine le_trans ?_ (ih k _)
          simp
        · refine le_trans ?_ (ih (k + 1) _)
          simp [processStopArrival_currentStopIndex]
        · exact le_refl _
    · exact le_refl _

/-- The stop-scan loop keeps the checked-once guard set. -/
theorem checkStopArrivalsGo_checked_of_checked (dist : Pos → Pos → ℚ) (now : ℚ)
    (fuel : ℕ) : ∀ (k : ℕ) (s : SimState),
    s.bus.midDayChargeChecked = true →
    (checkStopArrivalsGo dist now fuel k s).bus.midDayChargeChecked = true := by
  induction fuel with
  | zero => intro k s h; exact h
  | succ n ih =>
    intro k s h
    rw [checkStopArrivalsGo]
    split_ifs with hg
    · cases hget : s.route.stops.get? s.bus.currentStopIndex with
      | none => exact h
      | some stop =>
        dsimp only
        split_ifs with hc hnear
        · exact ih k _ (by simpa using h)
        · refine ih (k + 1) _ ?_
          simpa using processStopArrival_checked_of_checked now _ _ (by simpa using h)
        · exact h
    · exact h

/-- If the stop-scan loop flips the checked-once guard from false to true,
it also strictly advances the stop index (the flip happens while completing
a stop). -/
theorem checkStopArrivalsGo_flip_idx (dist : Pos → Pos → ℚ) (now : ℚ)
    (fuel : ℕ) : ∀ (k : ℕ) (s : SimState),
    (checkStopArrivalsGo dist now fuel k s).bus.midDayChargeChecked = true →
    s.bus.midDayChargeChecked = false →
    s.bus.currentStopIndex <
      (checkStopArrivalsGo dist now fuel k s).bus.currentStopIndex := by
  induction fuel with
  | zero =>
    intro k s hfin hfalse
    rw [checkStopArrivalsGo] at hfin
    rw [hfalse] at hfin
    exact absurd hfin (by simp)
  | succ n ih =>
    intro k s hfin hfalse
    rw [checkStopArrivalsGo] at hfin ⊢
    split_ifs at hfin ⊢ with hg
    · revert hfin
      cases hget : s.route.stops.get? s.bus.currentStopIndex with
      | none =>
        intro hfin
        dsimp only at hfin
        rw [hfalse] at hfin
        exact absurd hfin (by simp)
      | some stop =>
        intro hfin
        dsimp only at hfin ⊢
        split_ifs at hfin ⊢ with hc hnear
        · have hstep := ih k _ hfin (by simpa using hfalse)
          refine lt_of_le_of_lt ?_ hstep
          simp
        · by_cases hbc : (processStopArrival now
              { s with route := { s.route with
                stops := s.route.stops.set s.bus.currentStopIndex { stop with completed := true } } }
              { stop with completed := true }).bus.midDayChargeChecked = true
          · refine lt_of_lt_of_le ?_ (checkStopArrivalsGo_idx_mono dist now n (k + 1) _)
            simp [processStopArrival_currentStopIndex]
          · have hstep := ih (k + 1) _ hfin (by simpa using hbc)
            refine lt_of_le_of_lt ?_ hstep
            simp [processStopArrival_currentStopIndex]
        · rw [hfalse] at hfin
          exact absurd hfin (by simp)
    · rw [hfalse] at hfin
      exact absurd hfin (by simp)

theorem checkChargingNeeds_batteryKwh (s : SimState) :
    (checkChargingNeeds s).1.bus.batteryKwh = s.bus.batteryKwh :=
  (checkChargingNeeds_preserved s).1

theorem checkChargingNeeds_batteryLevel (s : SimState) :
    (checkChargingNeeds s).1.bus.batteryLevel = s.bus.batteryLevel :=
  (checkChargingNeeds_preserved s).2.1

theorem checkChargingNeeds_batteryCapacity (s : SimState) :
    (checkChargingNeeds s).1.bus.batteryCapacity = s.bus.batteryCapacity :=
  (checkChargingNeeds_preserved s).2.2.1

theorem checkChargingNeeds_progress (s : SimState) :
    (checkChargingNeeds s).1.bus.progress = s.bus.progress :=
  (checkChargingNeeds_preserved s).2.2.2.1

theorem checkChargingNeeds_currentStopIndex (s : SimState) :
    (checkChargingNeeds s).1.bus.currentStopIndex = s.bus.currentStopIndex :=
  (checkChargingNeeds_preserved s).2.2.2.2.2

theorem checkStopArrivals_batteryKwh (dist : Pos → Pos → ℚ) (now : ℚ)
    (s : SimState) :
    (checkStopArrivals dist now s).bus.batteryKwh = s.bus.batteryKwh := by
  rw [checkStopArrivals]
  split_ifs
  · rfl
  · exact checkStopArrivalsGo_batteryKwh dist now _ 0 s

theorem checkStopArrivals_batteryLevel (dist : Pos → Pos → ℚ) (now : ℚ)
    (s : SimState) :
    (checkStopArrivals dist now s).bus.batteryLevel = s.bus.batteryLevel := by
  rw [checkStopArrivals]
  split_ifs
  · rfl
  · exact checkStopArrivalsGo_batteryLevel dist now _ 0 s

theorem checkStopArrivals_batteryCapacity (dist : Pos → Pos → ℚ) (now : ℚ)
    (s : SimState) :
    (checkStopArrivals dist now s).bus.batteryCapacity = s.bus.batteryCapacity := by
  rw [checkStopArrivals]
  split_ifs
  · rfl
  · exact checkStopArrivalsGo_batteryCapacity dist now _ 0 s

theorem checkStopArrivals_progress (dist : Pos → Pos → ℚ) (now : ℚ)
    (s : SimState) :
    (checkStopArrivals dist now s).bus.progress = s.bus.progress := by
  rw [checkStopArrivals]
  split_ifs
  · rfl
  · exact checkStopArrivalsGo_progress dist now _ 0 s

theorem checkStopArrivals_idx_mono (dist : Pos → Pos → ℚ) (now : ℚ)
    (s : SimState) :
    s.bus.currentStopIndex ≤ (checkStopArrivals dist now s).bus.currentStopIndex := by
  rw [checkStopArrivals]
  split_ifs
  · exact le_refl _
  · exact checkStopArrivalsGo_idx_mono dist now _ 0 s

theorem checkStopArrivals_checked_of_checked (dist : Pos → Pos → ℚ) (now : ℚ)
    (s : SimState) (h : s.bus.midDayChargeChecked = true) :
    (checkStopArrivals dist now s).bus.midDayChargeChecked = true := by
  rw [checkStopArrivals]
  split_ifs
  · exact h
  · exact checkStopArrivalsGo_checked_of_checked dist now _ 0 s h

theorem checkStopArrivals_flip_idx (dist : Pos → Pos → ℚ) (now : ℚ)
    (s : SimState)
    (hfin : (checkStopArrivals dist now s).bus.midDayChargeChecked = true)
    (hfalse : s.bus.midDayChargeChecked = false) :
    s.bus.currentStopIndex < (checkStopArrivals dist now s).bus.currentStopIndex := by
  rw [checkStopArrivals] at hfin ⊢
  split_ifs at hfin ⊢
  · rw [hfalse] at hfin
    exact absurd hfin (by simp)
  · exact checkStopArrivalsGo_flip_idx dist now _ 0 s hfin hfalse

/-- Charging a well-formed battery preserves the invariant. -/
theorem handleCharging_batteryWF (dt : ℚ) (s : SimState) (hdt : 0 ≤ dt)
    (hrate : 0 ≤ jsOrQ s.bus.chargingKwhPerHour BATTERY_CONFIG.chargingRateKwhPerHour)
    (hwf : batteryWF s.bus) : batteryWF (handleCharging dt s).bus := by
  have he : 0 ≤ jsOrQ s.bus.chargingKwhPerHour BATTERY_CONFIG.chargingRateKwhPerHour *
      (dt / (3600 * 1000)) := mul_nonneg hrate (div_nonneg hdt (by norm_num))
  simp only [handleCharging]
  split_ifs <;> exact batteryWF_charge _ he hwf rfl rfl rfl

/-- Deadhead travel (leg 1) preserves the battery invariant. -/
theorem handleDeadheadTravel_batteryWF (dist : Pos → Pos → ℚ) (dt : ℚ)
    (s : SimState) (hdt : 0 ≤ dt) (hwf : batteryWF s.bus) :
    batteryWF (handleDeadheadTravel dist dt s).bus := by
  have he : 0 ≤ SIMULATION_CONFIG.baseSpeedMph * (dt / (3600 * 1000)) *
      getEfficiency s.bus.busType s.weather * MIDDAY_CHARGING.energyCostDeadhead := by
    have h1 : 0 ≤ SIMULATION_CONFIG.baseSpeedMph * (dt / (3600 * 1000)) :=
      mul_nonneg (by norm_num [SIMULATION_CONFIG.baseSpeedMph])
        (div_nonneg hdt (by norm_num))
    exact mul_nonneg (mul_nonneg h1 (getEfficiency_nonneg _ _))
      (by norm_num [MIDDAY_CHARGING.energyCostDeadhead])
  simp only [handleDeadheadTravel]
  split_ifs <;>
    first
      | exact batteryWF_congr rfl rfl rfl hwf
      | exact batteryWF_discharge _ he hwf rfl rfl rfl

/-- Return travel (leg 2) preserves the battery invariant. -/
theorem handleReturnFromCharger_batteryWF (dist : Pos → Pos → ℚ) (dt : ℚ)
    (s : SimState) (hdt : 0 ≤ dt) (hwf : batteryWF s.bus) :
    batteryWF (handleReturnFromCharger dist dt s).bus := by
  have he : 0 ≤ SIMULATION_CONFIG.baseSpeedMph * (dt / (3600 * 1000)) *
      getEfficiency s.bus.busType s.weather * MIDDAY_CHARGING.energyCostDeadhead := by
    have h1 : 0 ≤ SIMULATION_CONFIG.baseSpeedMph * (dt / (3600 * 1000)) :=
      mul_nonneg (by norm_num [SIMULATION_CONFIG.baseSpeedMph])
        (div_nonneg hdt (by norm_num))
    exact mul_nonneg (mul_nonneg h1 (getEfficiency_nonneg _ _))
      (by norm_num [MIDDAY_CHARGING.energyCostDeadhead])
  simp only [handleReturnFromCharger]
  split_ifs <;>
    first
      | exact batteryWF_congr rfl rfl rfl hwf
      | exact batteryWF_discharge _ he hwf rfl rfl rfl

/-- Projection facts for the movement block: battery fields, progress, and
the untouched flags. -/
theorem moveBusAdvance_batteryKwh (dist : Pos → Pos → ℚ) (dt : ℚ) (s : SimState) :
    (moveBusAdvance dist dt s).bus.batteryKwh =
      max 0 (s.bus.batteryKwh - SIMULATION_CONFIG.baseSpeedMph * (dt / (3600 * 1000)) *
        getEfficiency s.bus.busType s.weather) := rfl

theorem moveBusAdvance_batteryLevel (dist : Pos → Pos → ℚ) (dt : ℚ) (s : SimState) :
    (moveBusAdvance dist dt s).bus.batteryLevel =
      max 0 (s.bus.batteryKwh - SIMULATION_CONFIG.baseSpeedMph * (dt / (3600 * 1000)) *
        getEfficiency s.bus.busType s.weather) / s.bus.batteryCapacity * 100 := rfl

theorem moveBusAdvance_batteryCapacity (dist : Pos → Pos → ℚ) (dt : ℚ) (s : SimState) :
    (moveBusAdvance dist dt s).bus.batteryCapacity = s.bus.batteryCapacity := rfl

theorem moveBusAdvance_checked (dist : Pos → Pos → ℚ) (dt : ℚ) (s : SimState) :
    (moveBusAdvance dist dt s).bus.midDayChargeChecked =
      s.bus.midDayChargeChecked := rfl

theorem moveBusAdvance_currentStopIndex (dist : Pos → Pos → ℚ) (dt : ℚ) (s : SimState) :
    (moveBusAdvance dist dt s).bus.currentStopIndex = s.bus.currentStopIndex := rfl

/-- The trip-phase block only touches the phase labels. -/
theorem moveBusPhaseUpdate_bus_fields (s : SimState) :
    (moveBusPhaseUpdate s).bus.batteryKwh = s.bus.batteryKwh ∧
    (moveBusPhaseUpdate s).bus.batteryLevel = s.bus.batteryLevel ∧
    (moveBusPhaseUpdate s).bus.batteryCapacity = s.bus.batteryCapacity ∧
    (moveBusPhaseUpdate s).bus.progress = s.bus.progress ∧
    (moveBusPhaseUpdate s).bus.midDayChargeChecked = s.bus.midDayChargeChecked ∧
    (moveBusPhaseUpdate s).bus.currentStopIndex = s.bus.currentStopIndex := by
  rw [moveBusPhaseUpdate]
  split_ifs <;> simp

theorem moveBusPhaseUpdate_batteryKwh (s : SimState) :
    (moveBusPhaseUpdate s).bus.batteryKwh = s.bus.batteryKwh :=
  (moveBusPhaseUpdate_bus_fields s).1

theorem moveBusPhaseUpdate_batteryLevel (s : SimState) :
    (moveBusPhaseUpdate s).bus.batteryLevel = s.bus.batteryLevel :=
  (moveBusPhaseUpdate_bus_fields s).2.1

theorem moveBusPhaseUpdate_batteryCapacity (s : SimState) :
    (moveBusPhaseUpdate s).bus.batteryCapacity = s.bus.batteryCapacity :=
  (moveBusPhaseUpdate_bus_fields s).2.2.1

theorem moveBusPhaseUpdate_progress (s : SimState) :
    (moveBusPhaseUpdate s).bus.progress = s.bus.progress :=
  (moveBusPhaseUpdate_bus_fields s).2.2.2.1

theorem moveBusPhaseUpdate_checked (s : SimState) :
    (moveBusPhaseUpdate s).bus.midDayChargeChecked = s.bus.midDayChargeChecked :=
  (moveBusPhaseUpdate_bus_fields s).2.2.2.2.1

theorem moveBusPhaseUpdate_currentStopIndex (s : SimState) :
    (moveBusPhaseUpdate s).bus.currentStopIndex = s.bus.currentStopIndex :=
  (moveBusPhaseUpdate_bus_fields s).2.2.2.2.2

/-- The mid-day fallback block never touches battery fields or the stop
index. -/
theorem moveBusMidFallback_bus_fields (now : ℚ) (s : SimState) :
    (moveBusMidFallback now s).bus.batteryKwh = s.bus.batteryKwh ∧
    (moveBusMidFallback now s).bus.batteryLevel = s.bus.batteryLevel ∧
    (moveBusMidFallback now s).bus.batteryCapacity = s.bus.batteryCapacity ∧
    (moveBusMidFallback now s).bus.currentStopIndex = s.bus.currentStopIndex := by
  rw [moveBusMidFallback]
  split_ifs <;>
    simp [apply_ite SimState.bus, apply_ite Bus.batteryKwh, apply_ite Bus.batteryLevel,
      apply_ite Bus.batteryCapacity, apply_ite Bus.currentStopIndex,
      checkChargingNeeds_batteryKwh, checkChargingNeeds_batteryLevel,
      checkChargingNeeds_batteryCapacity, checkChargingNeeds_currentStopIndex,
      completeRoute]

theorem moveBusMidFallback_batteryKwh (now : ℚ) (s : SimState) :
    (moveBusMidFallback now s).bus.batteryKwh = s.bus.batteryKwh :=
  (moveBusMidFallback_bus_fields now s).1

theorem moveBusMidFallback_batteryLevel (now : ℚ) (s : SimState) :
    (moveBusMidFallback now s).bus.batteryLevel = s.bus.batteryLevel :=
  (moveBusMidFallback_bus_fields now s).2.1

theorem moveBusMidFallback_batteryCapacity (now : ℚ) (s : SimState) :
    (moveBusMidFallback now s).bus.batteryCapacity = s.bus.batteryCapacity :=
  (moveBusMidFallback_bus_fields now s).2.2.1

theorem moveBusMidFallback_currentStopIndex (now : ℚ) (s : SimState) :
    (moveBusMidFallback now s).bus.currentStopIndex = s.bus.currentStopIndex :=
  (moveBusMidFallback_bus_fields now s).2.2.2

/-- The fallback block keeps the checked-once guard set. -/
theorem moveBusMidFallback_checked_of_checked (now : ℚ) (s : SimState)
    (h : s.bus.midDayChargeChecked = true) :
    (moveBusMidFallback now s).bus.midDayChargeChecked = true := by
  rw [moveBusMidFallback, if_neg (by simp [h])]
  split_ifs <;> simp [completeRoute, h]

/-- If the fallback block flips the checked-once guard from false to true,
the progress sits in the [0.48, 0.52] fallback window and is unchanged. -/
theorem moveBusMidFallback_flip (now : ℚ) (s : SimState)
    (hfin : (moveBusMidFallback now s).bus.midDayChargeChecked = true)
    (hfalse : s.bus.midDayChargeChecked = false) :
    0.48 ≤ s.bus.progress ∧ s.bus.progress ≤ 0.52 ∧
      (moveBusMidFallback now s).bus.progress = s.bus.progress := by
  rw [moveBusMidFallback] at hfin ⊢
  split_ifs at hfin ⊢ with h1 h2
  · refine ⟨h1.1, h1.2.1, ?_⟩
    simp [apply_ite SimState.bus, apply_ite Bus.progress, checkChargingNeeds_progress]
  · rw [show (completeRoute s).bus.midDayChargeChecked =
        s.bus.midDayChargeChecked from rfl, hfalse] at hfin
    exact absurd hfin (by simp)
  · rw [hfalse] at hfin
    exact absurd hfin (by simp)

/-- Moving a bus with a well-formed battery preserves the invariant. -/
theorem moveBus_batteryWF (dist : Pos → Pos → ℚ) (now dt : ℚ) (s : SimState)
    (hdt : 0 ≤ dt) (hwf : batteryWF s.bus) :
    batteryWF (moveBus dist now dt s).bus := by
  have he : 0 ≤ SIMULATION_CONFIG.baseSpeedMph * (dt / (3600 * 1000)) *
      getEfficiency s.bus.busType s.weather :=
    mul_nonneg (mul_nonneg (by norm_num [SIMULATION_CONFIG.baseSpeedMph])
      (div_nonneg hdt (by norm_num))) (getEfficiency_nonneg _ _)
  rw [moveBus]
  split_ifs
  · exact hwf
  · exact batteryWF_zero hwf.1 rfl rfl
  · exact hwf
  · dsimp only
    split_ifs
    · exact batteryWF_zero hwf.1 rfl rfl
    · refine batteryWF_discharge _ he hwf ?_ ?_ ?_ <;>
        simp [moveBusMidFallback_batteryKwh, moveBusMidFallback_batteryLevel,
          moveBusMidFallback_batteryCapacity, checkStopArrivals_batteryKwh,
          checkStopArrivals_batteryLevel, checkStopArrivals_batteryCapacity,
          moveBusPhaseUpdate_batteryKwh, moveBusPhaseUpdate_batteryLevel,
          moveBusPhaseUpdate_batteryCapacity, moveBusAdvance_batteryKwh,
          moveBusAdvance_batteryLevel, moveBusAdvance_batteryCapacity]

/-- Charging ticks never touch the checked-once guard. -/
theorem handleCharging_checked (dt : ℚ) (s : SimState) :
    (handleCharging dt s).bus.midDayChargeChecked = s.bus.midDayChargeChecked := by
  simp only [handleCharging]
  split_ifs <;> rfl

/-- Deadhead travel never touches the checked-once guard. -/
theorem handleDeadheadTravel_checked (dist : Pos → Pos → ℚ) (dt : ℚ) (s : SimState) :
    (handleDeadheadTravel dist dt s).bus.midDayChargeChecked =
      s.bus.midDayChargeChecked := by
  simp only [handleDeadheadTravel]
  split_ifs <;> rfl

/-- Return travel never touches the checked-once guard. -/
theorem handleReturnFromCharger_checked (dist : Pos → Pos → ℚ) (dt : ℚ) (s : SimState) :
    (handleReturnFromCharger dist dt s).bus.midDayChargeChecked =
      s.bus.midDayChargeChecked := by
  simp only [handleReturnFromCharger]
  split_ifs <;> rfl

/-- A move tick keeps the checked-once guard set. -/
theorem moveBus_checked_of_checked (dist : Pos → Pos → ℚ) (now dt : ℚ)
    (s : SimState) (h : s.bus.midDayChargeChecked = true) :
    (moveBus dist now dt s).bus.midDayChargeChecked = true := by
  rw [moveBus]
  split_ifs
  · exact h
  · exact h
  · exact h
  · dsimp only
    split_ifs
    · exact h
    · refine moveBusMidFallback_checked_of_checked now _ ?_
      refine checkStopArrivals_checked_of_checked dist now _ ?_
      rw [moveBusPhaseUpdate_checked, moveBusAdvance_checked]
      exact h

/-- The status dispatch keeps the checked-once guard set. -/
theorem updateBusDispatch_checked_of_checked (dist : Pos → Pos → ℚ) (now dt : ℚ)
    (s : SimState) (h : s.bus.midDayChargeChecked = true) :
    (updateBusDispatch dist now dt s).bus.midDayChargeChecked = true := by
  rw [updateBusDispatch]
  dsimp only
  split_ifs
  · rw [handleDeadheadTravel_checked]; exact h
  · rw [handleReturnFromCharger_checked]; exact h
  · rw [handleCharging_checked]; exact h
  · exact moveBus_checked_of_checked dist now dt _ h
  · exact h
  · exact moveBus_checked_of_checked dist now dt _ h
  · exact h

/-- A full bus tick keeps the checked-once guard set. -/
theorem tickBus_checked_of_checked (dist : Pos → Pos → ℚ) (now dt : ℚ)
    (s : SimState) (h : s.bus.midDayChargeChecked = true) :
    (tickBus dist now dt s).bus.midDayChargeChecked = true := by
  rw [tickBus, updateBus]
  dsimp only
  split_ifs
  · exact h
  · exact h
  · exact updateBusDispatch_checked_of_checked dist now dt _ h
  · exact updateBusDispatch_checked_of_checked dist now dt _ h

/-- The status dispatch preserves the battery invariant. -/
theorem updateBusDispatch_batteryWF (dist : Pos → Pos → ℚ) (now dt : ℚ)
    (s : SimState) (hdt : 0 ≤ dt)
    (hrate : 0 ≤ jsOrQ s.bus.chargingKwhPerHour BATTERY_CONFIG.chargingRateKwhPerHour)
    (hwf : batteryWF s.bus) : batteryWF (updateBusDispatch dist now dt s).bus := by
  rw [updateBusDispatch]
  dsimp only
  split_ifs
  · exact handleDeadheadTravel_batteryWF dist dt _ hdt hwf
  · exact handleReturnFromCharger_batteryWF dist dt _ hdt hwf
  · exact handleCharging_batteryWF dt _ hdt hrate hwf
  · exact moveBus_batteryWF dist now dt _ hdt hwf
  · exact hwf
  · exact moveBus_batteryWF dist now dt _ hdt hwf
  · exact hwf

/-- Ticking the bus with a well-formed battery preserves the invariant. -/
theorem updateBus_batteryWF (dist : Pos → Pos → ℚ) (now dt : ℚ) (s : SimState)
    (hdt : 0 ≤ dt)
    (hrate : 0 ≤ jsOrQ s.bus.chargingKwhPerHour BATTERY_CONFIG.chargingRateKwhPerHour)
    (hwf : batteryWF s.bus) : batteryWF (updateBus dist now dt s).bus := by
  rw [updateBus]
  dsimp only
  split_ifs
  · exact hwf
  · exact updateBusDispatch_batteryWF dist now dt _ hdt hrate hwf
  · exact updateBusDispatch_batteryWF dist now dt _ hdt hrate hwf

/-- The loop tick preserves the battery invariant. -/
theorem tickBus_batteryWF (dist : Pos → Pos → ℚ) (now dt : ℚ) (s : SimState)
    (hdt : 0 ≤ dt)
    (hrate : 0 ≤ jsOrQ s.bus.chargingKwhPerHour BATTERY_CONFIG.chargingRateKwhPerHour)
    (hwf : batteryWF s.bus) : batteryWF (tickBus dist now dt s).bus := by
  rw [tickBus]
  split_ifs
  · exact hwf
  · exact updateBus_batteryWF dist now dt s hdt hrate hwf

/-- The overnight reset establishes the battery invariant for any target in
[0, 100]. -/
theorem resetBusForNewDay_batteryWF (bus : Bus) (route : Route) (T : ℚ)
    (week : Week) (stats : Stats) (hT0 : 0 ≤ T) (hT1 : T ≤ 100)
    (hcap : 0 < bus.batteryCapacity) :
    batteryWF (resetBusForNewDay bus route T week stats).1 := by
  have hk0 : 0 ≤ T / 100 * bus.batteryCapacity :=
    mul_nonneg (div_nonneg hT0 (by norm_num)) hcap.le
  have hk1 : T / 100 * bus.batteryCapacity ≤ bus.batteryCapacity := by
    have h1 : T / 100 ≤ 1 := (div_le_one (by norm_num)).mpr hT1
    calc T / 100 * bus.batteryCapacity ≤ 1 * bus.batteryCapacity :=
          mul_le_mul_of_nonneg_right h1 hcap.le
      _ = bus.batteryCapacity := one_mul _
  simp only [resetBusForNewDay]
  exact ⟨hcap, hk0, hk1, by field_simp⟩

/-- C1: after every state-mutating bus operation — the loop tick, the
per-bus update, route movement, deadhead travel, return travel, charging,
and the overnight reset — the battery satisfies
`0 ≤ batteryKwh ≤ batteryCapacity` and
`batteryLevel = 100·batteryKwh/batteryCapacity` (exactly, over ℚ). -/
theorem battery_invariant_all_ops (dist : Pos → Pos → ℚ) (now dt T : ℚ)
    (s : SimState) (bus : Bus) (route : Route) (week : Week) (stats : Stats)
    (hdt : 0 ≤ dt)
    (hrate : 0 ≤ jsOrQ s.bus.chargingKwhPerHour BATTERY_CONFIG.chargingRateKwhPerHour)
    (hwf : batteryWF s.bus)
    (hT0 : 0 ≤ T) (hT1 : T ≤ 100) (hcap : 0 < bus.batteryCapacity) :
    batteryWF ((tickBus dist now dt s).bus) ∧
    batteryWF ((updateBus dist now dt s).bus) ∧
    batteryWF ((moveBus dist now dt s).bus) ∧
    batteryWF ((handleDeadheadTravel dist dt s).bus) ∧
    batteryWF ((handleReturnFromCharger dist dt s).bus) ∧
    batteryWF ((handleCharging dt s).bus) ∧
    batteryWF ((resetBusForNewDay bus route T week stats).1) :=
  ⟨tickBus_batteryWF dist now dt s hdt hrate hwf,
   updateBus_batteryWF dist now dt s hdt hrate hwf,
   moveBus_batteryWF dist now dt s hdt hwf,
   handleDeadheadTravel_batteryWF dist dt s hdt hwf,
   handleReturnFromCharger_batteryWF dist dt s hdt hwf,
   handleCharging_batteryWF dt s hdt hrate hwf,
   resetBusForNewDay_batteryWF bus route T week stats hT0 hT1 hcap⟩

/-- Closed witness for `battery_invariant_all_ops` on a concrete mid-route
state with a one-hour tick and a 60% reset target. -/
theorem battery_invariant_all_ops_witness :
    batteryWF ((tickBus distOne 0 3600000 sHalf).bus) ∧
    batteryWF ((updateBus distOne 0 3600000 sHalf).bus) ∧
    batteryWF ((moveBus distOne 0 3600000 sHalf).bus) ∧
    batteryWF ((handleDeadheadTravel distOne 3600000 sHalf).bus) ∧
    batteryWF ((handleReturnFromCharger distOne 3600000 sHalf).bus) ∧
    batteryWF ((handleCharging 3600000 sHalf).bus) ∧
    batteryWF ((resetBusForNewDay bus0 route1 60 week0 stats0).1) :=
  battery_invariant_all_ops distOne 0 3600000 60 sHalf bus0 route1 week0 stats0
    (by norm_num)
    (by norm_num [sHalf, bus0, jsOrQ, BATTERY_CONFIG.chargingRateKwhPerHour])
    (by refine ⟨?_, ?_, ?_, ?_⟩ <;> norm_num [batteryWF, sHalf, bus0])
    (by norm_num) (by norm_num) (by norm_num [bus0])

theorem moveBusPhaseUpdate_route (s : SimState) :
    (moveBusPhaseUpdate s).route = s.route := by
  rw [moveBusPhaseUpdate]
  split_ifs <;> rfl

theorem moveBusPhaseUpdate_arrivedAtSchool (s : SimState) :
    (moveBusPhaseUpdate s).bus.arrivedAtSchool = s.bus.arrivedAtSchool := by
  rw [moveBusPhaseUpdate]
  split_ifs <;> rfl

theorem moveBusPhaseUpdate_isCharging (s : SimState) :
    (moveBusPhaseUpdate s).bus.isCharging = s.bus.isCharging := by
  rw [moveBusPhaseUpdate]
  split_ifs <;> rfl

/-- Under the constant distance function `distOne` no stop is within the
arrival threshold, so the stop-arrival scan is the identity whenever the
current stop is not yet completed. -/
theorem checkStopArrivalsGo_distOne_id (now : ℚ) (fuel sp : ℕ) (s : SimState)
    (h : ∀ stop, s.route.stops.get? s.bus.currentStopIndex = some stop →
      stop.completed = false) :
    checkStopArrivalsGo distOne now fuel sp s = s := by
  cases fuel with
  | zero => rfl
  | succ n =>
    rw [checkStopArrivalsGo]
    split_ifs with hg
    · rcases hget : s.route.stops.get? s.bus.currentStopIndex with _ | stop
      · rfl
      · dsimp only
        have hnc : ¬(distOne s.bus.position stop.coords <
            max SIMULATION_CONFIG.arrivalThreshold 0.15) := by
          rw [not_lt]
          refine max_le ?_ ?_ <;> norm_num [SIMULATION_CONFIG.arrivalThreshold, distOne]
        rw [if_neg (by simp [h stop hget]), if_neg hnc]
    · rfl

theorem checkStopArrivals_distOne_id (now : ℚ) (s : SimState)
    (h : ∀ stop, s.route.stops.get? s.bus.currentStopIndex = some stop →
      stop.completed = false) :
    checkStopArrivals distOne now s = s := by
  rw [checkStopArrivals]
  split_ifs
  · rfl
  · exact checkStopArrivalsGo_distOne_id now _ 0 s h

/-- When not short-circuited, the mid-day check marks the bus as checked. -/
theorem checkChargingNeeds_sets_checked (s : SimState)
    (h1 : ¬(s.bus.isCharging ∨ s.bus.midDayChargeChecked ∨
      s.bus.status = BusStatus.travelingToCharger))
    (h2 : s.route.stops.any (fun st => st.type == StopType.school) = true) :
    (checkChargingNeeds s).1.bus.midDayChargeChecked = true := by
  rw [checkChargingNeeds, if_neg h1, if_neg (by simp [h2])]
  dsimp only
  split_ifs <;> rfl

/-- Inside the fallback window the fallback block's checked flag is the one
the mid-day check produces. -/
theorem moveBusMidFallback_window_checked (now : ℚ) (s : SimState)
    (h : 0.48 ≤ s.bus.progress ∧ s.bus.progress ≤ 0.52 ∧
      ¬s.bus.midDayChargeChecked ∧ ¬s.bus.arrivedAtSchool) :
    (moveBusMidFallback now s).bus.midDayChargeChecked =
      (checkChargingNeeds { s with
        bus := { s.bus with
                 arrivedAtSchool := true
                 status := .atSchool } }).1.bus.midDayChargeChecked := by
  rw [moveBusMidFallback, if_pos h]
  dsimp only
  split_ifs <;> rfl

/-- If a move tick flips the checked-once guard from false to true, either a
stop arrival advanced the stop index or the final progress sits in the
[0.48, 0.52] fallback window. -/
theorem moveBus_flip (dist : Pos → Pos → ℚ) (now dt : ℚ) (s : SimState)
    (hfin : (moveBus dist now dt s).bus.midDayChargeChecked = true)
    (hfalse : s.bus.midDayChargeChecked = false) :
    s.bus.currentStopIndex < (moveBus dist now dt s).bus.currentStopIndex ∨
    (0.48 ≤ (moveBus dist now dt s).bus.progress ∧
      (moveBus dist now dt s).bus.progress ≤ 0.52) := by
  rw [moveBus] at hfin ⊢
  split_ifs at hfin ⊢
  · rw [hfalse] at hfin
    exact absurd hfin (by simp)
  · rw [show (strandBus s).bus.midDayChargeChecked = s.bus.midDayChargeChecked
      from rfl, hfalse] at hfin
    exact absurd hfin (by simp)
  · rw [hfalse] at hfin
    exact absurd hfin (by simp)
  · dsimp only at hfin ⊢
    split_ifs at hfin ⊢
    · rw [show (strandBus (moveBusAdvance dist dt s)).bus.midDayChargeChecked =
          s.bus.midDayChargeChecked from rfl, hfalse] at hfin
      exact absurd hfin (by simp)
    · by_cases hA : (checkStopArrivals dist now
          (moveBusPhaseUpdate (moveBusAdvance dist dt s))).bus.midDayChargeChecked = true
      · left
        have h1 : (moveBusPhaseUpdate
            (moveBusAdvance dist dt s)).bus.midDayChargeChecked = false := by
          rw [moveBusPhaseUpdate_checked, moveBusAdvance_checked]
          exact hfalse
        have h2 := checkStopArrivals_flip_idx dist now _ hA h1
        rw [moveBusMidFallback_currentStopIndex]
        refine lt_of_le_of_lt ?_ h2
        rw [moveBusPhaseUpdate_currentStopIndex, moveBusAdvance_currentStopIndex]
      · right
        have h3 := moveBusMidFallback_flip now _ hfin (by simpa using hA)
        rw [h3.2.2]
        exact ⟨h3.1, h3.2.1⟩

/-- Concrete evaluation of a single move tick from exactly 50% progress with
a 2880 ms time step: the fallback window flips the checked flag at a final
progress of 52%. -/
theorem moveBus_eval_at_052 :
    (moveBus distOne 0 2880 sHalf).bus.midDayChargeChecked = true ∧
    (moveBus distOne 0 2880 sHalf).bus.progress = 13 / 25 := by
  have hA1 : (moveBusAdvance distOne 2880 sHalf).bus.progress = 13 / 25 := by
    norm_num [moveBusAdvance, calculatePathLength, segmentLengths, distOne, sHalf,
      bus0, route1, SIMULATION_CONFIG.baseSpeedMph, min_def]
  have h1 : moveBus distOne 0 2880 sHalf =
      moveBusMidFallback 0 (checkStopArrivals distOne 0
        (moveBusPhaseUpdate (moveBusAdvance distOne 2880 sHalf))) := by
    rw [moveBus]
    rw [if_neg (by norm_num [sHalf, route1])]
    rw [if_neg (by norm_num [sHalf, bus0])]
    rw [if_neg (by norm_num [calculatePathLength, segmentLengths, distOne, sHalf,
      route1])]
    dsimp only
    rw [if_neg (by norm_num [moveBusAdvance, calculatePathLength, segmentLengths,
      distOne, sHalf, bus0, route1, SIMULATION_CONFIG.baseSpeedMph, getEfficiency,
      ESB_EFFICIENCY.typeA, max_def])]
  have hroute : (moveBusPhaseUpdate (moveBusAdvance distOne 2880 sHalf)).route =
      route1 := by
    rw [moveBusPhaseUpdate_route]
    rfl
  have hidx : (moveBusPhaseUpdate
      (moveBusAdvance distOne 2880 sHalf)).bus.currentStopIndex = 0 := by
    rw [moveBusPhaseUpdate_currentStopIndex]
    rfl
  have hchkP : (moveBusPhaseUpdate
      (moveBusAdvance distOne 2880 sHalf)).bus.midDayChargeChecked = false := by
    rw [moveBusPhaseUpdate_checked]
    rfl
  have harr : (moveBusPhaseUpdate
      (moveBusAdvance distOne 2880 sHalf)).bus.arrivedAtSchool = false := by
    rw [moveBusPhaseUpdate_arrivedAtSchool]
    rfl
  have hic : (moveBusPhaseUpdate
      (moveBusAdvance distOne 2880 sHalf)).bus.isCharging = false := by
    rw [moveBusPhaseUpdate_isCharging]
    rfl
  have hprogP : (moveBusPhaseUpdate
      (moveBusAdvance distOne 2880 sHalf)).bus.progress = 13 / 25 := by
    rw [moveBusPhaseUpdate_progress]
    exact hA1
  have hid : checkStopArrivals distOne 0
      (moveBusPhaseUpdate (moveBusAdvance distOne 2880 sHalf)) =
      moveBusPhaseUpdate (moveBusAdvance distOne 2880 sHalf) := by
    apply checkStopArrivals_distOne_id
    intro stop h
    rw [hroute, hidx] at h
    have h' : ({ type := StopType.school
                 coords := ((5 : ℚ), (5 : ℚ))
                 completed := false } : Stop) = stop := Option.some.inj h
    rw [← h']
  have hwin : (0.48 : ℚ) ≤ (moveBusPhaseUpdate
        (moveBusAdvance distOne 2880 sHalf)).bus.progress ∧
      (moveBusPhaseUpdate (moveBusAdvance distOne 2880 sHalf)).bus.progress ≤ 0.52 ∧
      ¬(moveBusPhaseUpdate
        (moveBusAdvance distOne 2880 sHalf)).bus.midDayChargeChecked ∧
      ¬(moveBusPhaseUpdate
        (moveBusAdvance distOne 2880 sHalf)).bus.arrivedAtSchool := by
    refine ⟨by rw [hprogP]; norm_num, by rw [hprogP]; norm_num,
      by simp [hchkP], by simp [harr]⟩
  have hwc := moveBusMidFallback_window_checked 0
    (moveBusPhaseUpdate (moveBusAdvance distOne 2880 sHalf)) hwin
  have hset : (checkChargingNeeds
      { moveBusPhaseUpdate (moveBusAdvance distOne 2880 sHalf) with
        bus := { (moveBusPhaseUpdate (moveBusAdvance distOne 2880 sHalf)).bus with
                   arrivedAtSchool := true
                   status := .atSchool } }).1.bus.midDayChargeChecked = true := by
    apply checkChargingNeeds_sets_checked
    · simp [hic, hchkP]
    · simp [hroute, route1]
  have hfin : (moveBusMidFallback 0 (moveBusPhaseUpdate
      (moveBusAdvance distOne 2880 sHalf))).bus.midDayChargeChecked = true := by
    rw [hwc]
    exact hset
  have hfl := moveBusMidFallback_flip 0
    (moveBusPhaseUpdate (moveBusAdvance distOne 2880 sHalf)) hfin hchkP
  constructor
  · rw [h1, hid]
    exact hfin
  · rw [h1, hid, hfl.2.2]
    exact hprogP

/-- C2: a moving, non-charging bus with an empty battery and no active dwell
is stranded by the next tick with its position and progress unchanged; a
stranded (non-charging) bus and a completed bus are frozen — a tick changes
neither their status nor their position or progress. -/
theorem zero_battery_strands_and_terminal_frozen (dist : Pos → Pos → ℚ)
    (now dt : ℚ) (s : SimState) :
    (s.bus.status = .moving → s.bus.batteryKwh ≤ 0 → s.bus.isCharging = false →
      ¬(jsTruthyQ s.bus.dwellUntil ∧ now < s.bus.dwellUntil.getD 0) →
      2 ≤ s.route.path.length →
      (tickBus dist now dt s).bus.status = .stranded ∧
      (tickBus dist now dt s).bus.position = s.bus.position ∧
      (tickBus dist now dt s).bus.progress = s.bus.progress) ∧
    (s.bus.status = .stranded → s.bus.isCharging = false →
      (tickBus dist now dt s).bus.status = .stranded ∧
      (tickBus dist now dt s).bus.isCharging = false ∧
      (tickBus dist now dt s).bus.position = s.bus.position ∧
      (tickBus dist now dt s).bus.progress = s.bus.progress) ∧
    (s.bus.status = .completed → tickBus dist now dt s = s) := by
  refine ⟨?_, ?_, ?_⟩
  · intro hmov hkwh hch hdw hpath
    have key : ∀ t : SimState, t.bus.status = .moving → t.bus.batteryKwh ≤ 0 →
        t.bus.isCharging = false → 2 ≤ t.route.path.length →
        (updateBusDispatch dist now dt t).bus.status = .stranded ∧
        (updateBusDispatch dist now dt t).bus.position = t.bus.position ∧
        (updateBusDispatch dist now dt t).bus.progress = t.bus.progress := by
      intro t hmov hkwh hch hpath
      rw [updateBusDispatch, if_neg (by simp [hmov]), if_neg (by simp [hmov]),
        if_neg (by simp [hch])]
      dsimp only
      rw [if_pos (by simp [hmov]), if_neg (by simp [hmov]), moveBus,
        if_neg (Nat.not_lt.mpr hpath), if_pos ⟨hkwh, by simp [hch]⟩]
      exact ⟨rfl, rfl, rfl⟩
    rw [tickBus, if_neg (by simp [hmov]), updateBus, if_neg hdw]
    dsimp only
    split_ifs with hdu
    · exact key _ hmov hkwh hch hpath
    · exact key _ hmov hkwh hch hpath
  · intro hstr hch
    have key : ∀ t : SimState, t.bus.status = .stranded → t.bus.isCharging = false →
        (updateBusDispatch dist now dt t).bus.status = .stranded ∧
        (updateBusDispatch dist now dt t).bus.isCharging = false ∧
        (updateBusDispatch dist now dt t).bus.position = t.bus.position ∧
        (updateBusDispatch dist now dt t).bus.progress = t.bus.progress := by
      intro t hstr hch
      rw [updateBusDispatch, if_neg (by simp [hstr]), if_neg (by simp [hstr]),
        if_neg (by simp [hch])]
      dsimp only
      rw [if_neg (by simp [hstr]), if_neg (by simp [hstr])]
      exact ⟨hstr, hch, rfl, rfl⟩
    rw [tickBus, if_neg (by simp [hstr]), updateBus]
    dsimp only
    split_ifs with hdw1 hdu
    · exact ⟨hstr, hch, rfl, rfl⟩
    · exact key _ hstr hch
    · exact key _ hstr hch
  · intro hcomp
    rw [tickBus, if_pos hcomp]

/-- Closed witness for `zero_battery_strands_and_terminal_frozen` on a dead
moving bus, a stranded bus and a completed bus. -/
theorem zero_battery_strands_and_terminal_frozen_witness :
    ((tickBus distOne 0 1000 sDead).bus.status = .stranded ∧
      (tickBus distOne 0 1000 sDead).bus.position = sDead.bus.position ∧
      (tickBus distOne 0 1000 sDead).bus.progress = sDead.bus.progress) ∧
    ((tickBus distOne 0 1000 sStranded).bus.status = .stranded ∧
      (tickBus distOne 0 1000 sStranded).bus.isCharging = false ∧
      (tickBus distOne 0 1000 sStranded).bus.position = sStranded.bus.position ∧
      (tickBus distOne 0 1000 sStranded).bus.progress = sStranded.bus.progress) ∧
    tickBus distOne 0 1000 sCompleted = sCompleted :=
  ⟨(zero_battery_strands_and_terminal_frozen distOne 0 1000 sDead).1 rfl
      (le_of_eq rfl) rfl (by decide) (by decide),
   (zero_battery_strands_and_terminal_frozen distOne 0 1000 sStranded).2.1 rfl rfl,
   (zero_battery_strands_and_terminal_frozen distOne 0 1000 sCompleted).2.2 rfl⟩

/-- C7 counterexample: one tick from exactly 50% route progress flips
`midDayChargeChecked` through the progress-window fallback, and the flip
happens at 52% progress — strictly after the claimed 50% bound. -/
theorem midDayChargeChecked_after_half_counterexample :
    sHalf.bus.midDayChargeChecked = false ∧
    (tickBus distOne 0 2880 sHalf).bus.midDayChargeChecked = true ∧
    (1 : ℚ) / 2 < (tickBus distOne 0 2880 sHalf).bus.progress := by
  have ht : tickBus distOne 0 2880 sHalf = moveBus distOne 0 2880 sHalf := rfl
  refine ⟨rfl, ?_, ?_⟩
  · rw [ht]
    exact moveBus_eval_at_052.1
  · rw [ht, moveBus_eval_at_052.2]
    norm_num

/-- C7 (amended): the checked-once guard is monotone over a day — a tick
never clears it and the mid-day check is a no-op once it is set — the
overnight reset clears it, and a move tick that flips it from false to true
either advanced the stop index (school-stop arrival path) or left the final
progress in the fallback window [0.48, 0.52], which reaches past 50%. -/
theorem midDayChargeChecked_once_spec (dist : Pos → Pos → ℚ) (now dt T : ℚ)
    (s : SimState) (bus : Bus) (route : Route) (week : Week) (stats : Stats) :
    (s.bus.midDayChargeChecked = true →
      (tickBus dist now dt s).bus.midDayChargeChecked = true) ∧
    (s.bus.midDayChargeChecked = true → checkChargingNeeds s = (s, false)) ∧
    (resetBusForNewDay bus route T week stats).1.midDayChargeChecked = false ∧
    (s.bus.midDayChargeChecked = false →
      (moveBus dist now dt s).bus.midDayChargeChecked = true →
      s.bus.currentStopIndex < (moveBus dist now dt s).bus.currentStopIndex ∨
      (0.48 ≤ (moveBus dist now dt s).bus.progress ∧
        (moveBus dist now dt s).bus.progress ≤ 0.52)) :=
  ⟨fun h => tickBus_checked_of_checked dist now dt s h,
   fun h => checkChargingNeeds_of_checked s h,
   rfl,
   fun hfalse hfin => moveBus_flip dist now dt s hfin hfalse⟩

/-- Closed witness for `midDayChargeChecked_once_spec`: an already-checked
bus stays checked over a tick and through the mid-day check, the reset
clears the flag, and the 2880 ms tick from 50% flips it inside the
fallback window. -/
theorem midDayChargeChecked_once_spec_witness :
    (tickBus distOne 0 1000 sChecked).bus.midDayChargeChecked = true ∧
    checkChargingNeeds sChecked = (sChecked, false) ∧
    (resetBusForNewDay bus0 route1 60 week0 stats0).1.midDayChargeChecked = false ∧
    (sHalf.bus.currentStopIndex <
        (moveBus distOne 0 2880 sHalf).bus.currentStopIndex ∨
      (0.48 ≤ (moveBus distOne 0 2880 sHalf).bus.progress ∧
        (moveBus distOne 0 2880 sHalf).bus.progress ≤ 0.52)) :=
  ⟨(midDayChargeChecked_once_spec distOne 0 1000 60 sChecked bus0 route1
      week0 stats0).1 rfl,
   (midDayChargeChecked_once_spec distOne 0 1000 60 sChecked bus0 route1
      week0 stats0).2.1 rfl,
   (midDayChargeChecked_once_spec distOne 0 1000 60 sChecked bus0 route1
      week0 stats0).2.2.1,
   (midDayChargeChecked_once_spec distOne 0 2880 60 sHalf bus0 route1
      week0 stats0).2.2.2 rfl moveBus_eval_at_052.1⟩

end ESB
